import Mathlib

/-!
Verification development for the policy-gate subsystem of the
terraform-mcp-eva MCP tool server: the `conftest` scanner pipeline
(pkg/conftest) and the `tflint` scanner pipeline (pkg/tflint).

The Go code is shallowly embedded: paths, URLs and commands are opaque
`String`s, the filesystem is an explicit record of directories and files
threaded through every effectful step, and every external effect
(go-getter download, process execution, JSON decoding) is supplied by an
oracle record so that theorems quantify over all tool behaviours.
`filepath.Abs` and `filepath.Join` are modelled on opaque path strings
(join is `a ++ "/" ++ b`, Abs is the identity), and Unicode-aware Go
string helpers (`strings.ToLower`, `unicode.IsSpace`) are modelled on
the ASCII range, which is the range the scanners' fixed tokens live in.
-/

/-- Character used for single quotes in conftest messages. -/
def quoteChar : Char := '\''

/-- Model of Go `strings.HasPrefix` on character lists: `goStartsL pre l`
is true when `l` starts with `pre`. -/
def goStartsL : List Char → List Char → Bool
  | [], _ => true
  | _ :: _, [] => false
  | p :: ps, c :: cs => p == c && goStartsL ps cs

/-- Model of Go `strings.Contains` on character lists: does `hay` contain
`needle` as a contiguous substring? -/
def goSubL : List Char → List Char → Bool
  | n, [] => n.isEmpty
  | n, c :: cs => goStartsL n (c :: cs) || goSubL n cs

/-- Model of Go `strings.HasPrefix` on strings. -/
def goStarts (pre s : String) : Bool := goStartsL pre.data s.data

/-- Model of Go `strings.Contains` on strings (`goContains s sub`). -/
def goContains (s sub : String) : Bool := goSubL sub.data s.data

/-- Model of Go `strings.HasSuffix` on strings. -/
def goEnds (s suf : String) : Bool := goStartsL suf.data.reverse s.data.reverse

/-- Model of Go `strings.ToLower` (ASCII range). -/
def lowerStr (s : String) : String := ⟨s.data.map Char.toLower⟩

/-- Model of Go `unicode.IsSpace` restricted to the ASCII whitespace
characters recognised by `strings.Fields`. -/
def goIsSpace (c : Char) : Bool :=
  c == ' ' || c == '\t' || c == '\n' || c == '\x0b' || c == '\x0c' || c == '\r'

/-- Characters trimmed by Go `strings.TrimSpace` from both ends. -/
def trimSpaceL (l : List Char) : List Char :=
  ((l.dropWhile goIsSpace).reverse.dropWhile goIsSpace).reverse

/-- Model of Go `strings.TrimSpace`. -/
def trimSpace (s : String) : String := ⟨trimSpaceL s.data⟩

/-- Model of Go `strings.Join(parts, sep)`. -/
def goJoin (sep : String) : List String → String
  | [] => ""
  | p :: ps => ps.foldl (fun acc x => acc ++ sep ++ x) p

/-- Model of `filepath.Join` on opaque path strings. -/
def joinPath (a b : String) : String := a ++ "/" ++ b

/-- Whether path `q` is the directory `root` itself or lies beneath it. -/
def underPath (root q : String) : Bool := q == root || goStarts (root ++ "/") q

/-- Explicit filesystem state: the set of existing directories and the
existing files with their contents.  A later `write` to the same path
replaces the earlier content, as `afero.WriteFile` truncates. -/
structure Fs where
  dirs : List String
  files : List (String × String)
deriving DecidableEq

/-- Model of `fs.MkdirAll`. -/
def Fs.mkdirAll (fs : Fs) (d : String) : Fs := ⟨d :: fs.dirs, fs.files⟩

/-- Model of `afero.WriteFile`: create or truncate-and-replace. -/
def Fs.write (fs : Fs) (p c : String) : Fs :=
  ⟨fs.dirs, (p, c) :: fs.files.filter (fun e => e.1 != p)⟩

/-- Content of the file at `p`, when it exists. -/
def Fs.readFile (fs : Fs) (p : String) : Option String :=
  (fs.files.find? (fun e => e.1 == p)).map (fun e => e.2)

/-- Whether a directory exists at `d`. -/
def Fs.dirExists (fs : Fs) (d : String) : Bool := fs.dirs.any (fun x => x == d)

/-- Whether a regular file exists at `p`. -/
def Fs.fileExists (fs : Fs) (p : String) : Bool := fs.files.any (fun e => e.1 == p)

/-- Model of `fs.RemoveAll(root)`: the directory and everything beneath it
are removed. -/
def Fs.removeAll (fs : Fs) (root : String) : Fs :=
  ⟨fs.dirs.filter (fun d => !underPath root d),
   fs.files.filter (fun e => !underPath root e.1)⟩

/-- Whether anything (directory or file) exists at or beneath `root`. -/
def Fs.existsUnder (fs : Fs) (root : String) : Bool :=
  fs.dirs.any (underPath root) || fs.files.any (fun e => underPath root e.1)

namespace Conftest

/-- Outcome of one external command execution: captured stdout, stderr and
the error (`none` when the process exited zero). -/
structure ExecOutcome where
  stdout : String
  stderr : String
  err : Option String
deriving DecidableEq

/-- IgnoredPolicy from pkg/conftest types: a policy to suppress. -/
structure IgnoredPolicy where
  Namespace : String
  Name : String
deriving DecidableEq

/-- PolicySource: a resolved policy source (pkg/conftest types).
`SourceType` embeds the Go field `Type` (a Lean keyword). -/
structure PolicySource where
  OriginalURL : String
  ResolvedPath : String
  SourceType : String
  PolicyCount : Nat
deriving DecidableEq

/-- PolicyViolation (pkg/conftest types). -/
structure PolicyViolation where
  Policy : String
  Rule : String
  Message : String
  Namespace : String
  Severity : String
  Resource : String
deriving DecidableEq

/-- PolicyWarning (pkg/conftest types). -/
structure PolicyWarning where
  Policy : String
  Rule : String
  Message : String
  Namespace : String
  Resource : String
deriving DecidableEq

/-- ConftestSummary (pkg/conftest types). -/
structure ConftestSummary where
  TotalViolations : Nat
  ErrorCount : Nat
  WarningCount : Nat
  InfoCount : Nat
  PoliciesRun : Nat
deriving DecidableEq

/-- ScanResult of the conftest scanner.  The target-file field follows the
scanner's `ScanParam.TargetFile` usage. -/
structure ScanResult where
  Success : Bool
  TargetFile : String
  PolicySources : List PolicySource
  Violations : List PolicyViolation
  Warnings : List PolicyWarning
  Output : String
  Summary : ConftestSummary
deriving DecidableEq

/-- FailureDetail of the raw conftest JSON (`msg` field; the unused
`metadata` map is omitted from the model). -/
structure FailureDetail where
  Message : String
deriving DecidableEq

/-- WarningDetail of the raw conftest JSON. -/
structure WarningDetail where
  Message : String
deriving DecidableEq

/-- NamespaceResult: one per-namespace record of the conftest JSON. -/
structure NamespaceResult where
  Filename : String
  Namespace : String
  Successes : Nat
  Failures : List FailureDetail
  Warnings : List WarningDetail
deriving DecidableEq

/-- RawOutput: the conftest JSON output, an array of namespace results. -/
abbrev RawOutput := List NamespaceResult

/-- ScanParam of the conftest scanner (fields as used by `Scan` and
validated per the package's parameter type). -/
structure ScanParam where
  PreDefinedPolicyLibraryAlias : String
  PolicyUrls : List String
  TargetFile : String
  IgnoredPolicies : List IgnoredPolicy
  Namespaces : List String
  IncludeDefaultAVMExceptions : Bool
deriving DecidableEq

/-- Validate of IgnoredPolicy: both fields must be non-empty. -/
def IgnoredPolicy.Validate (p : IgnoredPolicy) : Except String Unit :=
  if p.Namespace == "" then .error "namespace is required"
  else if p.Name == "" then .error "name is required"
  else .ok ()

/-- Loop of `ScanParam.Validate` over the ignored policies, reporting the
index of the first invalid entry. -/
def validateIgnoredFrom : List IgnoredPolicy → Nat → Except String Unit
  | [], _ => .ok ()
  | pol :: rest, i =>
    match pol.Validate with
    | .error e => .error ("ignored_policies[" ++ toString i ++ "]: " ++ e)
    | .ok _ => validateIgnoredFrom rest (i + 1)

/-- Validate of the conftest scan parameters: mutual exclusivity, the
required target file, the predefined-alias whitelist and each ignored
policy. -/
def ScanParam.Validate (p : ScanParam) : Except String Unit :=
  if p.PreDefinedPolicyLibraryAlias != "" && !p.PolicyUrls.isEmpty then
    .error "predefined_policy_library_alias and policy_urls are mutually exclusive"
  else if p.TargetFile == "" then .error "plan_file is required"
  else if p.PreDefinedPolicyLibraryAlias != "" &&
      !(p.PreDefinedPolicyLibraryAlias == "aprl" ||
        p.PreDefinedPolicyLibraryAlias == "avmsec" ||
        p.PreDefinedPolicyLibraryAlias == "all") then
    .error "invalid predefined_policy_library_alias"
  else validateIgnoredFrom p.IgnoredPolicies 0

/-- URL of the predefined APRL policy bundle (pkg/conftest config). -/
def aprlURL : String :=
  "git::https://github.com/Azure/policy-library-avm.git//policy/Azure-Proactive-Resiliency-Library-v2"

/-- URL of the predefined avmsec policy bundle (pkg/conftest config). -/
def avmsecURL : String :=
  "git::https://github.com/Azure/policy-library-avm.git//policy/avmsec"

/-- The fixed `predefinedPolicyConfigs` table. -/
def predefinedPolicyConfigs (key : String) : Option (List String) :=
  if key == "aprl" then some [aprlURL]
  else if key == "avmsec" then some [avmsecURL]
  else if key == "all" then some [aprlURL, avmsecURL]
  else none

/-- resolvePredefinedPolicyLibrary: table lookup with the invalid-alias
error. -/
def resolvePredefinedPolicyLibrary (key : String) : Except String (List String) :=
  match predefinedPolicyConfigs key with
  | none => .error ("invalid predefined_policy_library_alias: " ++ key)
  | some urls => .ok urls

/-- validateTargetPlan: the plan file must exist and be a regular file. -/
def validateTargetPlan (fs : Fs) (planFile : String) : Except String Unit :=
  if fs.fileExists planFile then .ok ()
  else if fs.dirExists planFile then .error ("plan path is not a file: " ++ planFile)
  else .error ("plan file does not exist: " ++ planFile)

/-- Namespace flags emitted by `buildConftestCommand` for a non-empty
namespaces list: one `--namespace <n>` pair per entry. -/
def nsFlags : List String → List String
  | [] => []
  | n :: rest => "--namespace" :: n :: nsFlags rest

/-- Policy flags emitted by `buildConftestCommand`: one
`-p <resolved_path>` pair per policy source, in list order. -/
def polFlags : List PolicySource → List String
  | [] => []
  | s :: rest => "-p" :: s.ResolvedPath :: polFlags rest

/-- buildConftestCommand: base tokens, namespace selection, policy flags,
then the plan file, joined with single spaces. -/
def buildConftestCommand (planFile : String) (policySources : List PolicySource)
    (namespaces : List String) : String :=
  goJoin " "
    (["conftest", "test", "--no-color", "-o", "json"] ++
      (if !namespaces.isEmpty then nsFlags namespaces else ["--all-namespaces"]) ++
      polFlags policySources ++ [planFile])

/-- extractRuleFromMessage: the substring before the first `:`, trimmed,
keeping only the tail after the last `/`; `"unknown"` when the message has
no colon. -/
def extractRuleFromMessage (message : String) : String :=
  if goSubL [':'] message.data then
    let rulePart := trimSpaceL (message.data.takeWhile (fun c => c != ':'))
    if goSubL ['/'] rulePart then
      ⟨(rulePart.reverse.takeWhile (fun c => c != '/')).reverse⟩
    else ⟨rulePart⟩
  else "unknown"

/-- extractResourceFromMessage: the value between the first pair of single
quotes, surfaced when it contains a `.` and contains `azurerm_` or
`module.`; empty otherwise. -/
def extractResourceFromMessage (message : String) : String :=
  match message.data.dropWhile (fun c => c != quoteChar) with
  | [] => ""
  | _ :: after =>
    let res := after.takeWhile (fun c => c != quoteChar)
    match after.dropWhile (fun c => c != quoteChar) with
    | [] => ""
    | _ :: _ =>
      if goSubL ['.'] res &&
          (goSubL "azurerm_".data res || goSubL "module.".data res) then ⟨res⟩
      else ""

/-- Conversion of one failure detail into a PolicyViolation. -/
def mkViolation (nr : NamespaceResult) (d : FailureDetail) : PolicyViolation :=
  { Policy := nr.Namespace
    Rule := extractRuleFromMessage d.Message
    Message := d.Message
    Namespace := nr.Namespace
    Severity := "error"
    Resource := extractResourceFromMessage d.Message }

/-- Conversion of one warning detail into a PolicyWarning. -/
def mkWarning (nr : NamespaceResult) (d : WarningDetail) : PolicyWarning :=
  { Policy := nr.Namespace
    Rule := extractRuleFromMessage d.Message
    Message := d.Message
    Namespace := nr.Namespace
    Resource := extractResourceFromMessage d.Message }

/-- Violations collected by `parseConftestOutput`, namespace record by
namespace record. -/
def violationsOf : RawOutput → List PolicyViolation
  | [] => []
  | nr :: rest => nr.Failures.map (mkViolation nr) ++ violationsOf rest

/-- Warnings collected by `parseConftestOutput`. -/
def warningsOf : RawOutput → List PolicyWarning
  | [] => []
  | nr :: rest => nr.Warnings.map (mkWarning nr) ++ warningsOf rest

/-- parseConftestOutput applied to the JSON-decode outcome of the output
string (the decode itself is oracle-supplied in the pipeline). -/
def parseConftestOutput (decoded : Except String RawOutput) :
    Except String (List PolicyViolation × List PolicyWarning) :=
  match decoded with
  | .error e => .error ("failed to parse conftest output: " ++ e)
  | .ok raw => .ok (violationsOf raw, warningsOf raw)

end Conftest

namespace Conftest

/-- Oracle for the conftest scanner's external effects: the fresh
workspace name chosen by `afero.TempDir`, whether temp-dir creation
succeeds, the per-index fresh policy subdirectory names, the go-getter
outcome and materialised entries per URL, the command executor, and the
JSON decoder (`json.Unmarshal` into `RawOutput`). -/
structure Env where
  wsName : String
  tmpOk : Bool
  policySub : Nat → String
  policyDirOk : Nat → Bool
  download : String → Except String Unit
  fetched : String → List (String × String)
  exec : String → String → ExecOutcome
  decode : String → Except String RawOutput

/-- Effect of a successful go-getter download into `dest`: an entry with
an empty relative path is a single file written at `dest` itself, any
other entry is a file beneath `dest`. -/
def applyFetch (fs : Fs) (dest : String) : List (String × String) → Fs
  | [] => fs
  | e :: rest =>
    applyFetch (if e.1 == "" then fs.write dest e.2 else fs.write (joinPath dest e.1) e.2)
      dest rest

/-- countPolicyFiles: recursive walk counting files whose lowercased name
ends in `.rego`.  Matching the suffix on the full path is equivalent to
matching it on the base name, since `.rego` contains no separator. -/
def countPolicyFiles (fs : Fs) (dir : String) : Nat :=
  (fs.files.filter (fun e => underPath dir e.1 && goEnds (lowerStr e.1) ".rego")).length

/-- downloadPolicySource: allocate a fresh subdirectory under the
workspace (`i` is the position of this URL in the download sequence),
download into it, and count the `.rego` files found. -/
def downloadPolicySource (env : Env) (i : Nat) (url tempDir : String) (fs : Fs) :
    Except String PolicySource × Fs :=
  if env.policyDirOk i then
    let policyDir := joinPath tempDir (env.policySub i)
    let fs1 := fs.mkdirAll policyDir
    match env.download url with
    | .error e => (.error ("failed to download policy from " ++ url ++ ": " ++ e), fs1)
    | .ok _ =>
      let fs2 := applyFetch fs1 policyDir (env.fetched url)
      (.ok { OriginalURL := url, ResolvedPath := policyDir, SourceType := "directory",
             PolicyCount := countPolicyFiles fs2 policyDir }, fs2)
  else (.error "failed to create policy directory", fs)

/-- URL of the default AVM exceptions file. -/
def defaultAVMExceptionsURL : String :=
  "https://raw.githubusercontent.com/Azure/policy-library-avm/refs/heads/main/policy/avmsec/avm_exceptions.rego.bak"

/-- downloadDefaultAVMExceptions: fetch the fixed exceptions URL into its
own `default_exceptions` directory as a single file. -/
def downloadDefaultAVMExceptions (env : Env) (tempDir : String) (fs : Fs) :
    Except String PolicySource × Fs :=
  let exceptionsDir := joinPath tempDir "default_exceptions"
  let fs1 := fs.mkdirAll exceptionsDir
  let filePath := joinPath exceptionsDir "avmsec_exceptions.rego"
  match env.download defaultAVMExceptionsURL with
  | .error e =>
    (.error ("failed to download default AVM exceptions from " ++
      defaultAVMExceptionsURL ++ ": " ++ e), fs1)
  | .ok _ =>
    (.ok { OriginalURL := defaultAVMExceptionsURL, ResolvedPath := exceptionsDir,
           SourceType := "directory", PolicyCount := 1 },
     applyFetch fs1 filePath (env.fetched defaultAVMExceptionsURL))

/-- Grouping of the ignored policies by namespace: keys in first-seen
order, rule names accumulated in input order.  This is the deterministic
stand-in for the Go `map[string][]string` built by `createIgnoreConfig`
(Go's map iteration order is unspecified; no confirmed claim depends on
the cross-namespace order). -/
def addPolicy : List (String × List String) → IgnoredPolicy → List (String × List String)
  | [], pol => [(pol.Namespace, [pol.Name])]
  | (ns, rules) :: rest, pol =>
    if ns == pol.Namespace then (ns, rules ++ [pol.Name]) :: rest
    else (ns, rules) :: addPolicy rest pol

/-- Grouping used by `createIgnoreConfig`. -/
def groupByNamespace (pols : List IgnoredPolicy) : List (String × List String) :=
  pols.foldl addPolicy []

/-- generateIgnoreRegoContent: the exact Rego exception template. -/
def generateIgnoreRegoContent (ns : String) (rules : List String) : String :=
  "package " ++ ns ++ "\n\nimport rego.v1\n\nexception contains rules if \x7b\n    rules = [" ++
    goJoin ", " (rules.map (fun r => "\"" ++ r ++ "\"")) ++ "]\n\x7d"

/-- Directory of the exception artifact generated for namespace `ns`. -/
def exceptionDir (tempDir ns : String) : String :=
  joinPath tempDir ("exceptions_" ++ lowerStr ns)

/-- File path of the exception artifact generated for namespace `ns`. -/
def exceptionFilePath (tempDir ns : String) : String :=
  joinPath (exceptionDir tempDir ns) ("exceptions_" ++ lowerStr ns ++ ".rego")

/-- Iteration of `createIgnoreConfig` over the grouped namespaces: create
the per-namespace directory, write the exception file, collect the
directory.  In-memory directory creation and file writes cannot fail in
the model (the Go error branches are for filesystem failures). -/
def createIgnoreLoop (tempDir : String) : List (String × List String) → Fs → List String × Fs
  | [], fs => ([], fs)
  | (ns, rules) :: rest, fs =>
    (exceptionDir tempDir ns ::
      (createIgnoreLoop tempDir rest
        ((fs.mkdirAll (exceptionDir tempDir ns)).write (exceptionFilePath tempDir ns)
          (generateIgnoreRegoContent ns rules))).1,
     (createIgnoreLoop tempDir rest
        ((fs.mkdirAll (exceptionDir tempDir ns)).write (exceptionFilePath tempDir ns)
          (generateIgnoreRegoContent ns rules))).2)

/-- createIgnoreConfig: group the ignored policies by namespace and write
one exception directory per namespace. -/
def createIgnoreConfig (pols : List IgnoredPolicy) (tempDir : String) (fs : Fs) :
    List String × Fs :=
  if pols.isEmpty then ([], fs)
  else createIgnoreLoop tempDir (groupByNamespace pols) fs

/-- Download loop of `resolvePolicySources` over the resolved URLs, in
order; `i` numbers the fresh per-URL subdirectories. -/
def downloadAll (env : Env) (tempDir : String) : List String → Nat → Fs →
    Except String (List PolicySource) × Fs
  | [], _, fs => (.ok [], fs)
  | url :: rest, i, fs =>
    match downloadPolicySource env i url tempDir fs with
    | (.error e, fs1) => (.error ("failed to download policy source " ++ url ++ ": " ++ e), fs1)
    | (.ok src, fs1) =>
      match downloadAll env tempDir rest (i + 1) fs1 with
      | (.error e, fs2) => (.error e, fs2)
      | (.ok srcs, fs2) => (.ok (src :: srcs), fs2)

/-- URL expansion of the predefined alias, when one is set. -/
def resolveAliasUrls (param : ScanParam) : Except String (List String) :=
  if param.PreDefinedPolicyLibraryAlias != "" then
    match resolvePredefinedPolicyLibrary param.PreDefinedPolicyLibraryAlias with
    | .error e => .error ("predefined policy library resolution failed: " ++ e)
    | .ok urls => .ok urls
  else .ok []

/-- Full URL list of `resolvePolicySources`: alias expansion plus custom
URLs, defaulting to the `all` bundle when both are empty. -/
def resolveAllUrls (param : ScanParam) : Except String (List String) :=
  match resolveAliasUrls param with
  | .error e => .error e
  | .ok urls0 =>
    if (urls0 ++ param.PolicyUrls).isEmpty then
      match resolvePredefinedPolicyLibrary "all" with
      | .error e => .error ("default policy library resolution failed: " ++ e)
      | .ok urls => .ok urls
    else .ok (urls0 ++ param.PolicyUrls)

/-- Optional default-AVM-exceptions step of `resolvePolicySources`. -/
def afterDefaultSources (env : Env) (param : ScanParam) (tempDir : String)
    (sources : List PolicySource) (fs1 : Fs) : Except String (List PolicySource) × Fs :=
  if param.IncludeDefaultAVMExceptions then
    match downloadDefaultAVMExceptions env tempDir fs1 with
    | (.error e, fs2) => (.error ("failed to download default AVM exceptions: " ++ e), fs2)
    | (.ok src, fs2) => (.ok (sources ++ [src]), fs2)
  else (.ok sources, fs1)

/-- Ignore-config step of `resolvePolicySources`: append one exception
source per generated directory. -/
def appendIgnoreSources (param : ScanParam) (tempDir : String)
    (sources2 : List PolicySource) (fs2 : Fs) : Except String (List PolicySource) × Fs :=
  if !param.IgnoredPolicies.isEmpty then
    (.ok (sources2 ++ (createIgnoreConfig param.IgnoredPolicies tempDir fs2).1.map (fun p =>
      { OriginalURL := "ignore-config", ResolvedPath := p,
        SourceType := "directory", PolicyCount := 1 })),
     (createIgnoreConfig param.IgnoredPolicies tempDir fs2).2)
  else (.ok sources2, fs2)

/-- resolvePolicySources: expand the predefined alias and/or custom URLs
(defaulting to `all`), download every URL, optionally add the default AVM
exceptions, then append the ignore-config exception sources. -/
def resolvePolicySources (env : Env) (param : ScanParam) (tempDir : String) (fs : Fs) :
    Except String (List PolicySource) × Fs :=
  match resolveAllUrls param with
  | .error e => (.error e, fs)
  | .ok urls =>
    match downloadAll env tempDir urls 0 fs with
    | (.error e, fs1) => (.error e, fs1)
    | (.ok sources, fs1) =>
      match afterDefaultSources env param tempDir sources fs1 with
      | (.error e, fs2) => (.error e, fs2)
      | (.ok sources2, fs2) => appendIgnoreSources param tempDir sources2 fs2

/-- executeConftestScan: run the command; a non-zero exit is tolerated
exactly when stdout is non-empty and decodes as valid conftest JSON. -/
def executeConftestScan (env : Env) (workingDir command : String) : Except String String :=
  let oc := env.exec workingDir command
  match oc.err with
  | some e =>
    if oc.stdout != "" then
      match env.decode oc.stdout with
      | .ok _ => .ok oc.stdout
      | .error _ => .error ("conftest scan failed: " ++ e ++ ", stderr: " ++ oc.stderr)
    else .error ("conftest scan failed: " ++ e ++ ", stderr: " ++ oc.stderr)
  | none => .ok oc.stdout

/-- Final result assembly of a successful conftest scan, with the summary
computed from the populated arrays. -/
def mkScanResult (param : ScanParam) (sources : List PolicySource)
    (violations : List PolicyViolation) (warnings : List PolicyWarning)
    (output : String) : ScanResult :=
  { Success := true
    TargetFile := param.TargetFile
    PolicySources := sources
    Violations := violations
    Warnings := warnings
    Output := output
    Summary :=
      { TotalViolations := violations.length
        ErrorCount := violations.length
        WarningCount := warnings.length
        InfoCount := 0
        PoliciesRun := sources.length } }

/-- Body of `Scan` between workspace creation and the deferred
`RemoveAll`: resolve sources, build and run the command, parse. -/
def scanBody (env : Env) (param : ScanParam) (tempDir : String) (fs : Fs) :
    Except String ScanResult × Fs :=
  match resolvePolicySources env param tempDir fs with
  | (.error e, fs1) => (.error ("policy source resolution failed: " ++ e), fs1)
  | (.ok sources, fs1) =>
    match executeConftestScan env ""
        (buildConftestCommand param.TargetFile sources param.Namespaces) with
    | .error e => (.error ("conftest execution failed: " ++ e), fs1)
    | .ok output =>
      match parseConftestOutput (env.decode output) with
      | .error e => (.error ("output parsing failed: " ++ e), fs1)
      | .ok (violations, warnings) =>
        (.ok (mkScanResult param sources violations warnings output), fs1)

/-- Scan: validate, create the workspace, run the body, and release the
workspace on every exit path (the deferred `fs.RemoveAll(tempDir)`). -/
def Scan (env : Env) (param : ScanParam) (fs0 : Fs) : Except String ScanResult × Fs :=
  match param.Validate with
  | .error e => (.error ("parameter validation failed: " ++ e), fs0)
  | .ok _ =>
    match validateTargetPlan fs0 param.TargetFile with
    | .error e => (.error ("plan file validation failed: " ++ e), fs0)
    | .ok _ =>
      if env.tmpOk then
        let tempDir := env.wsName
        let body := scanBody env param tempDir (fs0.mkdirAll tempDir)
        (body.1, body.2.removeAll tempDir)
      else (.error "failed to create temp directory", fs0)

end Conftest

namespace Tflint

/-- Outcome of one external command execution (pkg/tflint executor). -/
structure ExecOutcome where
  stdout : String
  stderr : String
  err : Option String
deriving DecidableEq

/-- Point of a TFLint range. -/
structure Point where
  Line : Int
  Column : Int
deriving DecidableEq

/-- Range of an issue (`TfRange` embeds the Go type `Range`). -/
structure TfRange where
  Filename : String
  Start : Point
  End : Point
deriving DecidableEq

/-- Issue of the tflint result model. -/
structure Issue where
  Rule : String
  Severity : String
  Message : String
  Range : TfRange
deriving DecidableEq

/-- RawIssue of the TFLint JSON (`rule.name` and `rule.severity` of the
nested Go struct are flattened into two fields). -/
structure RawIssue where
  RuleName : String
  RuleSeverity : String
  Message : String
  Range : TfRange
deriving DecidableEq

/-- RawError of the TFLint JSON. -/
structure RawError where
  Message : String
  Range : TfRange
deriving DecidableEq

/-- TfOutput embeds the Go `Output` struct of the TFLint JSON. -/
structure TfOutput where
  Issues : List RawIssue
  Errors : List RawError
deriving DecidableEq

/-- ScanSummary (pkg/tflint types). -/
structure ScanSummary where
  TotalIssues : Nat
  ErrorCount : Nat
  WarningCount : Nat
  InfoCount : Nat
deriving DecidableEq

/-- ScanResult (pkg/tflint types). -/
structure ScanResult where
  Success : Bool
  Category : String
  TargetPath : String
  Issues : List Issue
  Output : String
  Summary : ScanSummary
deriving DecidableEq

/-- ConfigData (pkg/tflint types). -/
structure ConfigData where
  TempDir : String
  ConfigPath : String
deriving DecidableEq

/-- ScanParam (pkg/tflint types). -/
structure ScanParam where
  Category : String
  RemoteConfigUrl : String
  TargetPath : String
  ConfigFile : String
  IgnoredRules : List String
deriving DecidableEq

/-- Observable effect events of one tflint scan invocation: creation of
the temp config workspace, and remote fetch attempts. -/
inductive TEvent where
  | tempCreated (dir : String)
  | fetch (url : String)
deriving DecidableEq

/-- Oracle for the tflint scanner's external effects. -/
structure Env where
  cwd : String
  tmpOk : Bool
  tmpCfgDir : String
  fetch : String → Except String String
  exec : String → String → ExecOutcome
  decode : String → Except String TfOutput

/-- getDefaultCategory (pkg/tflint utils). -/
def getDefaultCategory (category : String) : String :=
  if category == "reusable" || category == "example" then category else "reusable"

/-- getConfigURL (pkg/tflint utils). -/
def getConfigURL (category : String) : String :=
  if category == "example" then
    "https://raw.githubusercontent.com/Azure/avm-terraform-governance/refs/heads/main/tflint-configs/avm.tflint_example.hcl"
  else
    "https://raw.githubusercontent.com/Azure/avm-terraform-governance/refs/heads/main/tflint-configs/avm.tflint.hcl"

/-- getDefaultTargetPath: current working directory when empty, otherwise
the path itself (`filepath.Abs` modelled as the identity on the opaque
path strings). -/
def getDefaultTargetPath (env : Env) (targetPath : String) : String :=
  if targetPath == "" then env.cwd else targetPath

/-- validateTargetDirectory: the target must exist and be a directory. -/
def validateTargetDirectory (fs : Fs) (targetPath : String) : Except String Unit :=
  if fs.dirExists targetPath then .ok ()
  else if fs.fileExists targetPath then
    .error ("target path is not a directory: " ++ targetPath)
  else .error ("target directory does not exist: " ++ targetPath)

/-- Result of a config setup step: the config data or an error, the
cleanup to defer (the temp dir to remove, when one was created), the
filesystem, and the event log. -/
structure SetupOutcome where
  cfg : Except String ConfigData
  cleanupDir : Option String
  fs : Fs
  log : List TEvent

/-- setupTempConfigDir: create the fresh temp config directory. -/
def setupTempConfigDir (env : Env) (fs : Fs) (log : List TEvent) :
    Except String String × Fs × List TEvent :=
  if env.tmpOk then
    (.ok env.tmpCfgDir, fs.mkdirAll env.tmpCfgDir, log ++ [.tempCreated env.tmpCfgDir])
  else (.error "failed to create temp directory", fs, log)

/-- Query suffix stripping of the git-root heuristic: the URL up to the
first `?`. -/
def stripQuery (url : String) : String := ⟨url.data.takeWhile (fun c => c != '?')⟩

/-- setupRemoteConfig: create the temp dir, reject `git::` URLs without a
`.git//` file subpath, otherwise fetch the remote file into
`<tempDir>/remote.tflint.hcl`. -/
def setupRemoteConfig (env : Env) (remoteURL : String) (fs : Fs) : SetupOutcome :=
  match setupTempConfigDir env fs [] with
  | (.error e, fs1, log1) => ⟨.error e, none, fs1, log1⟩
  | (.ok tempDir, fs1, log1) =>
    if goStarts "git::" remoteURL && !goContains (stripQuery remoteURL) ".git//" then
      ⟨.error ("remote_config_url must point to a single file (git repository root detected): " ++
        remoteURL), some tempDir, fs1, log1⟩
    else
      match env.fetch remoteURL with
      | .error e =>
        ⟨.error ("failed to fetch remote config: " ++ e), some tempDir, fs1,
          log1 ++ [.fetch remoteURL]⟩
      | .ok content =>
        let baseConfigPath := joinPath tempDir "remote.tflint.hcl"
        ⟨.ok { TempDir := tempDir, ConfigPath := baseConfigPath }, some tempDir,
          fs1.write baseConfigPath content, log1 ++ [.fetch remoteURL]⟩

/-- setupConfig: create the temp dir, download the predefined category
config (via `downloadConfigContent`, whose private download directory is
created and removed entirely within the call) and write it as
`<tempDir>/base.tflint.hcl`. -/
def setupConfig (env : Env) (category : String) (fs : Fs) : SetupOutcome :=
  match setupTempConfigDir env fs [] with
  | (.error e, fs1, log1) => ⟨.error e, none, fs1, log1⟩
  | (.ok tempDir, fs1, log1) =>
    let configURL := getConfigURL (getDefaultCategory category)
    match env.fetch configURL with
    | .error e =>
      ⟨.error ("failed to download config from " ++ configURL ++ ": " ++ e), some tempDir,
        fs1, log1 ++ [.fetch configURL]⟩
    | .ok content =>
      let baseConfigPath := joinPath tempDir "base.tflint.hcl"
      ⟨.ok { TempDir := tempDir, ConfigPath := baseConfigPath }, some tempDir,
        fs1.write baseConfigPath content, log1 ++ [.fetch configURL]⟩

/-- executeTFLintInit: `tflint --init --config=<cfg>`; any failure is
fatal. -/
def executeTFLintInit (env : Env) (targetPath configPath : String) : Except String String :=
  let oc := env.exec targetPath ("tflint --init --config=" ++ configPath)
  match oc.err with
  | some e => .error ("tflint init failed: " ++ e ++ ", stderr: " ++ oc.stderr)
  | none => .ok oc.stdout

/-- Disable-rule flags appended to the scan command, one per ignored
rule. -/
def disableFlags : List String → String
  | [] => ""
  | r :: rest => " --disable-rule=" ++ r ++ disableFlags rest

/-- Command string of the tflint scan step. -/
def tflintScanCommand (configPath : String) (ignoredRules : List String) : String :=
  "tflint --format=json --config=" ++ configPath ++ disableFlags ignoredRules

/-- executeTFLintScan: run the scan; a non-zero exit is tolerated exactly
when stdout is non-empty and decodes as valid TFLint JSON. -/
def executeTFLintScan (env : Env) (targetPath configPath : String)
    (ignoredRules : List String) : Except String String :=
  let oc := env.exec targetPath (tflintScanCommand configPath ignoredRules)
  match oc.err with
  | some e =>
    if oc.stdout != "" then
      match env.decode oc.stdout with
      | .ok _ => .ok oc.stdout
      | .error _ => .error ("tflint scan failed: " ++ e ++ ", stderr: " ++ oc.stderr)
    else .error ("tflint scan failed: " ++ e ++ ", stderr: " ++ oc.stderr)
  | none => .ok oc.stdout

/-- Conversion of a raw TFLint issue into the result model. -/
def cvtIssue (ri : RawIssue) : Issue :=
  { Rule := ri.RuleName, Severity := ri.RuleSeverity, Message := ri.Message, Range := ri.Range }

/-- Conversion of a top-level TFLint error into an error-severity issue. -/
def cvtError (re : RawError) : Issue :=
  { Rule := "tflint_error", Severity := "error", Message := re.Message, Range := re.Range }

/-- Count of raw issues whose lowercased severity equals `sev` (the
per-bucket increments of the severity switch). -/
def countSev (issues : List RawIssue) (sev : String) : Nat :=
  (issues.filter (fun i => lowerStr i.RuleSeverity == sev)).length

/-- parseScanOutput applied to the JSON-decode outcome of the scan stdout:
on decode failure a failed result whose output holds the init output and
the parse error message, plus the wrapped error; on success the converted
issues with the summary counted by severity bucket, each top-level error
counted as an error. -/
def parseScanOutput (decoded : Except String TfOutput)
    (jsonOutput category targetPath initOutput : String) : ScanResult × Option String :=
  match decoded with
  | .error e =>
    ({ Success := false, Category := category, TargetPath := targetPath, Issues := [],
       Output := "Init: " ++ initOutput ++ "\nParse Error: " ++ e,
       Summary := ⟨0, 0, 0, 0⟩ },
     some ("failed to parse TFLint output: " ++ e))
  | .ok out =>
    let issues := out.Issues.map cvtIssue ++ out.Errors.map cvtError
    ({ Success := true, Category := category, TargetPath := targetPath, Issues := issues,
       Output := "Init: " ++ initOutput ++ "\nScan: " ++ jsonOutput,
       Summary :=
         { TotalIssues := issues.length
           ErrorCount := countSev out.Issues "error" + out.Errors.length
           WarningCount := countSev out.Issues "warning"
           InfoCount := countSev out.Issues "info" } },
     none)

/-- Outcome of one tflint scan: the Go pair `(*ScanResult, error)` plus
the filesystem and the event log. -/
structure TfOutcome where
  result : Option ScanResult
  err : Option String
  fs : Fs
  log : List TEvent
deriving DecidableEq

/-- Steps of `Scan` after config setup, before the deferred cleanup:
init, scan, parse. -/
def scanAfterSetup (env : Env) (param : ScanParam) (category targetPath : String)
    (cfgRes : Except String ConfigData) (fs : Fs) (log : List TEvent) : TfOutcome :=
  match cfgRes with
  | .error e => ⟨none, some ("failed to setup config: " ++ e), fs, log⟩
  | .ok config =>
    match executeTFLintInit env targetPath config.ConfigPath with
    | .error e => ⟨none, some ("failed to initialize TFLint: " ++ e), fs, log⟩
    | .ok initOutput =>
      match executeTFLintScan env targetPath config.ConfigPath param.IgnoredRules with
      | .error e =>
        ⟨some { Success := false, Category := category, TargetPath := targetPath,
                Issues := [],
                Output := "Init: " ++ initOutput ++ "\nScan Error: " ++ e,
                Summary := ⟨0, 0, 0, 0⟩ },
          some e, fs, log⟩
      | .ok scanOutput =>
        let pr := parseScanOutput (env.decode scanOutput) scanOutput category targetPath
          initOutput
        ⟨some pr.1, pr.2, fs, log⟩

/-- Config-setup step of `Scan`: remote when `remote_config_url` is set,
category otherwise. -/
def scanSetup (env : Env) (param : ScanParam) (fs0 : Fs) : SetupOutcome :=
  if param.RemoteConfigUrl != "" then setupRemoteConfig env param.RemoteConfigUrl fs0
  else setupConfig env (getDefaultCategory param.Category) fs0

/-- Deferred cleanup of `Scan`: remove the temp config dir when one was
created. -/
def scanCleanup (s : SetupOutcome) (out : TfOutcome) : TfOutcome :=
  match s.cleanupDir with
  | some d => ⟨out.result, out.err, out.fs.removeAll d, out.log⟩
  | none => out

/-- Scan: mutual-exclusivity check, defaults, target validation, config
setup (remote or category), init + scan + parse, with the deferred
cleanup of the temp config dir on every exit path after setup. -/
def Scan (env : Env) (param : ScanParam) (fs0 : Fs) : TfOutcome :=
  if param.Category != "" && param.RemoteConfigUrl != "" then
    ⟨none, some "category and remote_config_url are mutually exclusive; set only one", fs0, []⟩
  else
    match validateTargetDirectory fs0 (getDefaultTargetPath env param.TargetPath) with
    | .error e => ⟨none, some e, fs0, []⟩
    | .ok _ =>
      scanCleanup (scanSetup env param fs0)
        (scanAfterSetup env param (getDefaultCategory param.Category)
          (getDefaultTargetPath env param.TargetPath) (scanSetup env param fs0).cfg
          (scanSetup env param fs0).fs (scanSetup env param fs0).log)

end Tflint

/-- Word-splitting loop of Go `strings.Fields`: `cur` is the reversed
current word being accumulated. -/
def goFieldsAux : List Char → List Char → List (List Char)
  | cur, [] => if cur.isEmpty then [] else [cur.reverse]
  | cur, c :: cs =>
    if goIsSpace c then
      if cur.isEmpty then goFieldsAux [] cs else cur.reverse :: goFieldsAux [] cs
    else goFieldsAux (c :: cur) cs

/-- Model of Go `strings.Fields` on character lists: maximal runs of
non-whitespace characters. -/
def goFieldsL (s : List Char) : List (List Char) := goFieldsAux [] s

/-- Model of Go `strings.Fields` on strings.  `RealCommandExecutor`
computes the executed argv as `strings.Fields(command)`. -/
def goFields (s : String) : List String := (goFieldsL s.data).map (fun l => ⟨l⟩)

/-- The argv actually executed by `RealCommandExecutor.ExecuteCommand` for
a command string (argv[0] and the argument vector together). -/
def executedArgv (command : String) : List String := goFields command

/-- Join with single spaces on character lists (the claim's description of
the command assembly). -/
def joinSpaceL : List (List Char) → List Char
  | [] => []
  | [a] => a
  | a :: b :: t => a ++ ' ' :: joinSpaceL (b :: t)

/-- Tail of a space-join at string level. -/
def joinTail : List String → List Char
  | [] => []
  | x :: t => ' ' :: x.data ++ joinTail t

/-- Concrete conftest oracle used by witnesses: the download succeeds with
a single rego file, the binary exits zero with fixed stdout, decoding
yields an empty namespace array. -/
def wEnvC : Conftest.Env where
  wsName := "/ws"
  tmpOk := true
  policySub := fun _ => "p0"
  policyDirOk := fun _ => true
  download := fun _ => .ok ()
  fetched := fun _ => [("a.rego", "pkg")]
  exec := fun _ _ => { stdout := "OUT", stderr := "", err := none }
  decode := fun _ => .ok []

/-- Namespace record decoded from the findings stdout of `wEnvC4`. -/
def wNsRes : Conftest.NamespaceResult where
  Filename := "/plan.json"
  Namespace := "ns"
  Successes := 0
  Failures := [{ Message := "ns/r1: bad thing" }]
  Warnings := []

/-- Conftest oracle where the binary exits non-zero but stdout is valid
conftest JSON with one failure. -/
def wEnvC4 : Conftest.Env where
  wsName := "/ws"
  tmpOk := true
  policySub := fun _ => "p0"
  policyDirOk := fun _ => true
  download := fun _ => .ok ()
  fetched := fun _ => [("a.rego", "pkg")]
  exec := fun _ _ => { stdout := "VOUT", stderr := "", err := some "exit status 2" }
  decode := fun _ => .ok [wNsRes]

/-- Conftest oracle where the binary exits zero but stdout is not JSON. -/
def wEnvC8 : Conftest.Env where
  wsName := "/ws"
  tmpOk := true
  policySub := fun _ => "p0"
  policyDirOk := fun _ => true
  download := fun _ => .ok ()
  fetched := fun _ => [("a.rego", "pkg")]
  exec := fun _ _ => { stdout := "RAWBODY", stderr := "", err := none }
  decode := fun _ => .error "bad token"

/-- Concrete conftest parameters used by witnesses. -/
def wParamC : Conftest.ScanParam where
  PreDefinedPolicyLibraryAlias := ""
  PolicyUrls := ["u"]
  TargetFile := "/plan.json"
  IgnoredPolicies := []
  Namespaces := []
  IncludeDefaultAVMExceptions := false

/-- Conftest parameters with ignored policies in two namespaces. -/
def wParamC5 : Conftest.ScanParam where
  PreDefinedPolicyLibraryAlias := ""
  PolicyUrls := ["u"]
  TargetFile := "/plan.json"
  IgnoredPolicies := [{ Namespace := "avmsec", Name := "rule_a" },
    { Namespace := "APRL", Name := "rule_b" }]
  Namespaces := []
  IncludeDefaultAVMExceptions := false

/-- Initial filesystem holding the plan file. -/
def wFsC : Fs := ⟨[], [("/plan.json", "x")]⟩

/-- Result of the witness conftest scan under `wEnvC`. -/
def wResC : Conftest.ScanResult :=
  Conftest.mkScanResult wParamC
    [{ OriginalURL := "u", ResolvedPath := "/ws/p0", SourceType := "directory",
       PolicyCount := 1 }] [] [] "OUT"

/-- Filesystem left by the witness policy resolution with ignored
policies. -/
def wFs5 : Fs := (Conftest.resolvePolicySources wEnvC wParamC5 "/t" wFsC).2

/-- Policy sources produced by the witness policy resolution with ignored
policies. -/
def wSources5 : List Conftest.PolicySource :=
  [{ OriginalURL := "u", ResolvedPath := "/t/p0", SourceType := "directory",
     PolicyCount := 1 },
   { OriginalURL := "ignore-config", ResolvedPath := "/t/exceptions_avmsec",
     SourceType := "directory", PolicyCount := 1 },
   { OriginalURL := "ignore-config", ResolvedPath := "/t/exceptions_aprl",
     SourceType := "directory", PolicyCount := 1 }]

/-- Concrete tflint oracle used by witnesses: fetch and execution succeed,
decoding yields an empty output. -/
def wEnvT : Tflint.Env where
  cwd := "/cwd"
  tmpOk := true
  tmpCfgDir := "/cfg"
  fetch := fun _ => .ok "cfgcontent"
  exec := fun _ _ => { stdout := "JOUT", stderr := "", err := none }
  decode := fun _ => .ok { Issues := [], Errors := [] }

/-- Raw issue decoded from the findings stdout of `wEnvT4`. -/
def wIssue4 : Tflint.RawIssue where
  RuleName := "r"
  RuleSeverity := "warning"
  Message := "m"
  Range := { Filename := "f", Start := { Line := 1, Column := 1 },
             End := { Line := 1, Column := 2 } }

/-- Tflint oracle where init succeeds and the scan exits non-zero with
valid JSON stdout holding one warning issue. -/
def wEnvT4 : Tflint.Env where
  cwd := "/cwd"
  tmpOk := true
  tmpCfgDir := "/cfg"
  fetch := fun _ => .ok "cfgcontent"
  exec := fun _ c =>
    if goStarts "tflint --init" c then { stdout := "init ok", stderr := "", err := none }
    else { stdout := "FOUT", stderr := "", err := some "exit status 2" }
  decode := fun _ => .ok { Issues := [wIssue4], Errors := [] }

/-- Tflint oracle where init succeeds and the scan exits zero with
non-JSON stdout. -/
def wEnvT8 : Tflint.Env where
  cwd := "/cwd"
  tmpOk := true
  tmpCfgDir := "/cfg"
  fetch := fun _ => .ok "cfgcontent"
  exec := fun _ c =>
    if goStarts "tflint --init" c then { stdout := "init ok", stderr := "", err := none }
    else { stdout := "RAWSTDOUTBODY", stderr := "", err := none }
  decode := fun _ => .error "bad token"

/-- Concrete tflint parameters used by witnesses. -/
def wParamT : Tflint.ScanParam where
  Category := ""
  RemoteConfigUrl := ""
  TargetPath := "/tf"
  ConfigFile := ""
  IgnoredRules := []

/-- Tflint parameters whose remote config URL is a git repository root. -/
def wParam7 : Tflint.ScanParam where
  Category := ""
  RemoteConfigUrl := "git::https://host/org/repo.git?ref=v1"
  TargetPath := "/tf"
  ConfigFile := ""
  IgnoredRules := []

/-- Initial filesystem holding the target terraform directory. -/
def wFsT : Fs := ⟨["/tf"], []⟩

theorem existsUnder_removeAll (fs : Fs) (root : String) :
    (fs.removeAll root).existsUnder root = false := by
  simp only [Fs.removeAll, Fs.existsUnder, Bool.or_eq_false_iff]
  constructor
  · rw [List.any_eq_false]
    intro d hd
    rw [List.mem_filter] at hd
    simpa using hd.2
  · rw [List.any_eq_false]
    intro e he
    rw [List.mem_filter] at he
    simpa using he.2

theorem readFile_write_self (fs : Fs) (p c : String) :
    (fs.write p c).readFile p = some c := by
  simp [Fs.write, Fs.readFile, List.find?]

theorem readFile_write_other (fs : Fs) (p c q : String) (h : p ≠ q) :
    (fs.write p c).readFile q = fs.readFile q := by
  simp only [Fs.write, Fs.readFile, List.find?]
  have hpq : (p == q) = false := by simp [h]
  simp only [hpq]
  congr 1
  induction fs.files with
  | nil => rfl
  | cons e rest ih =>
    by_cases he : e.1 = p
    · simp [List.filter, he, hpq, List.find?, ih]
    · have : (e.1 != p) = true := by simp [he]
      by_cases heq : e.1 = q
      · have h3 : (q != p) = true := by simp [Ne.symm h]
        simp [List.filter, this, List.find?, heq, h3]
      · have h2 : (e.1 == q) = false := by simp [heq]
        simp [List.filter, this, List.find?, h2, ih]

theorem readFile_mkdirAll (fs : Fs) (d q : String) :
    (fs.mkdirAll d).readFile q = fs.readFile q := rfl

theorem goFieldsAux_word (a : List Char) :
    ∀ (cur s : List Char), (∀ c ∈ a, goIsSpace c = false) →
      goFieldsAux cur (a ++ s) = goFieldsAux (a.reverse ++ cur) s := by
  induction a with
  | nil => intro cur s _; simp
  | cons c a' ih =>
    intro cur s h
    have hc : goIsSpace c = false := h c (by simp)
    have hrest : ∀ x ∈ a', goIsSpace x = false := fun x hx => h x (by simp [hx])
    calc goFieldsAux cur ((c :: a') ++ s)
        = goFieldsAux (c :: cur) (a' ++ s) := by simp [goFieldsAux, hc]
      _ = goFieldsAux (a'.reverse ++ (c :: cur)) s := ih (c :: cur) s hrest
      _ = goFieldsAux ((c :: a').reverse ++ cur) s := by
          simp [List.reverse_cons, List.append_assoc]

theorem goFieldsAux_space (cur s : List Char) :
    goFieldsAux cur (' ' :: s) =
      if cur.isEmpty then goFieldsAux [] s else cur.reverse :: goFieldsAux [] s := by
  have : goIsSpace ' ' = true := by decide
  simp [goFieldsAux, this]

theorem goFieldsAux_members (s : List Char) :
    ∀ cur, (∀ c ∈ cur, goIsSpace c = false) →
      ∀ w ∈ goFieldsAux cur s, w ≠ [] ∧ ∀ c ∈ w, goIsSpace c = false := by
  induction s with
  | nil =>
    intro cur hcur w hw
    by_cases hc : cur.isEmpty
    · simp [goFieldsAux, hc] at hw
    · simp [goFieldsAux, hc] at hw
      subst hw
      refine ⟨by simpa [List.isEmpty_iff] using hc, ?_⟩
      intro c hc'
      exact hcur c (by simpa using hc')
  | cons c cs ih =>
    intro cur hcur w hw
    by_cases hsp : goIsSpace c = true
    · by_cases hce : cur.isEmpty
      · rw [goFieldsAux] at hw
        simp only [hsp, if_true, hce] at hw
        exact ih [] (by simp) w hw
      · rw [goFieldsAux] at hw
        simp only [hsp, if_true, hce, if_false] at hw
        rcases List.mem_cons.mp hw with h1 | h2
        · subst h1
          refine ⟨by simpa [List.isEmpty_iff] using hce, ?_⟩
          intro x hx
          exact hcur x (by simpa using hx)
        · exact ih [] (by simp) w h2
    · have hsp' : goIsSpace c = false := by simpa using hsp
      rw [goFieldsAux] at hw
      simp only [hsp', if_false] at hw
      refine ih (c :: cur) ?_ w hw
      intro x hx
      rcases List.mem_cons.mp hx with h1 | h2
      · subst h1; exact hsp'
      · exact hcur x h2

theorem strDataAppend (a b : String) : (a ++ b).data = a.data ++ b.data := by
  cases a; cases b; rfl

theorem goJoin_foldl_data (ps : List String) :
    ∀ acc : String, (ps.foldl (fun a x => a ++ " " ++ x) acc).data = acc.data ++ joinTail ps := by
  induction ps with
  | nil => intro acc; simp [joinTail]
  | cons q t ih =>
    intro acc
    calc ((q :: t).foldl (fun a x => a ++ " " ++ x) acc).data
        = (t.foldl (fun a x => a ++ " " ++ x) (acc ++ " " ++ q)).data := rfl
      _ = (acc ++ " " ++ q).data ++ joinTail t := ih (acc ++ " " ++ q)
      _ = acc.data ++ joinTail (q :: t) := by
          simp [strDataAppend, joinTail, List.append_assoc]

theorem joinSpaceL_map_data (p : String) (ps : List String) :
    joinSpaceL (p.data :: ps.map String.data) = p.data ++ joinTail ps := by
  induction ps generalizing p with
  | nil => simp [joinSpaceL, joinTail]
  | cons q t ih =>
    calc joinSpaceL (p.data :: q.data :: t.map String.data)
        = p.data ++ ' ' :: joinSpaceL (q.data :: t.map String.data) := by
          simp [joinSpaceL]
      _ = p.data ++ ' ' :: (q.data ++ joinTail t) := by rw [ih q]
      _ = p.data ++ joinTail (q :: t) := by simp [joinTail]

theorem goJoin_space_data (parts : List String) :
    (goJoin " " parts).data = joinSpaceL (parts.map String.data) := by
  cases parts with
  | nil => rfl
  | cons p ps =>
    calc (goJoin " " (p :: ps)).data
        = (ps.foldl (fun a x => a ++ " " ++ x) p).data := rfl
      _ = p.data ++ joinTail ps := goJoin_foldl_data ps p
      _ = joinSpaceL ((p :: ps).map String.data) := by
          simp only [List.map]
          exact (joinSpaceL_map_data p ps).symm

theorem strEqIffData (a b : String) : a = b ↔ a.data = b.data := by
  constructor
  · intro h; rw [h]
  · intro h; cases a; cases b; exact congrArg String.mk h

theorem comp_data_mk : (String.data ∘ fun x => ({ data := x } : String)) = id :=
  funext (fun _ => rfl)

theorem comp_mk_data : ((fun x => ({ data := x } : String)) ∘ String.data) = id :=
  funext (fun _ => rfl)

theorem map_mk_eq_iff (l : List (List Char)) (parts : List String) :
    l.map (fun x => (⟨x⟩ : String)) = parts ↔ l = parts.map String.data := by
  constructor
  · intro h
    have h2 := congrArg (List.map String.data) h
    rw [List.map_map, comp_data_mk, List.map_id] at h2
    exact h2
  · intro h
    subst h
    rw [List.map_map, comp_mk_data, List.map_id]

theorem goFieldsL_join (args : List (List Char)) :
    (∀ a ∈ args, a ≠ [] ∧ ∀ c ∈ a, goIsSpace c = false) →
      goFieldsL (joinSpaceL args) = args := by
  induction args with
  | nil => intro _; rfl
  | cons a rest ih =>
    intro h
    obtain ⟨ha, hsp⟩ := h a (by simp)
    cases rest with
    | nil =>
      have := goFieldsAux_word a [] [] hsp
      simp only [List.append_nil] at this
      rw [goFieldsL]
      show goFieldsAux [] (joinSpaceL [a]) = [a]
      rw [joinSpaceL, this]
      rw [goFieldsAux]
      have hne : a.reverse.isEmpty = false := by
        simp [List.isEmpty_iff, ha]
      simp [hne]
    | cons b t =>
      rw [goFieldsL]
      show goFieldsAux [] (joinSpaceL (a :: b :: t)) = a :: b :: t
      rw [joinSpaceL]
      have hw := goFieldsAux_word a [] (' ' :: joinSpaceL (b :: t)) hsp
      simp only [List.append_nil] at hw
      rw [hw, goFieldsAux_space]
      have hcond : ¬ (a.reverse.isEmpty = true) := by
        simp [List.isEmpty_iff, ha]
      rw [if_neg hcond, List.reverse_reverse]
      congr 1
      exact ih (fun x hx => h x (by simp [hx]))
theorem dropWhile_append_all {α} (p : α → Bool) (xs ys : List α)
    (h : ∀ c ∈ xs, p c = true) : (xs ++ ys).dropWhile p = ys.dropWhile p := by
  induction xs with
  | nil => rfl
  | cons x t ih =>
    have hx := h x (by simp)
    simp only [List.cons_append, List.dropWhile]
    rw [hx]
    exact ih (fun c hc => h c (by simp [hc]))

theorem takeWhile_append_all {α} (p : α → Bool) (xs ys : List α)
    (h : ∀ c ∈ xs, p c = true) : (xs ++ ys).takeWhile p = xs ++ ys.takeWhile p := by
  induction xs with
  | nil => rfl
  | cons x t ih =>
    have hx := h x (by simp)
    have ht := ih (fun c hc => h c (by simp [hc]))
    simp [List.takeWhile, hx, ht]

theorem goFields_join_iff (parts : List String) :
    goFields (goJoin " " parts) = parts ↔
      ∀ p ∈ parts, p ≠ "" ∧ ∀ c ∈ p.data, goIsSpace c = false := by
  show (goFieldsL (goJoin " " parts).data).map (fun l => (⟨l⟩ : String)) = parts ↔ _
  rw [goJoin_space_data, map_mk_eq_iff]
  constructor
  · intro h p hp
    have hmem : p.data ∈ goFieldsAux [] (joinSpaceL (parts.map String.data)) := by
      show p.data ∈ goFieldsL (joinSpaceL (parts.map String.data))
      rw [h]
      exact List.mem_map_of_mem String.data hp
    have hm := goFieldsAux_members (joinSpaceL (parts.map String.data)) []
      (by simp) p.data hmem
    refine ⟨?_, hm.2⟩
    intro hpe
    exact hm.1 (by simp [hpe])
  · intro h
    apply goFieldsL_join
    intro a ha
    rw [List.mem_map] at ha
    obtain ⟨p, hp, rfl⟩ := ha
    obtain ⟨h1, h2⟩ := h p hp
    exact ⟨fun he => h1 ((strEqIffData p "").mpr he), h2⟩

theorem nsFlags_eq (nss : List String) :
    Conftest.nsFlags nss = nss.flatMap (fun n => ["--namespace", n]) := by
  induction nss with
  | nil => rfl
  | cons n t ih => simp [Conftest.nsFlags, ih]

theorem polFlags_eq (srcs : List Conftest.PolicySource) :
    Conftest.polFlags srcs = srcs.flatMap (fun s => ["-p", s.ResolvedPath]) := by
  induction srcs with
  | nil => rfl
  | cons s t ih => simp [Conftest.polFlags, ih]

/-- C6: for every conftest scan reaching command construction, the command
is exactly `conftest test --no-color -o json`, then `--all-namespaces`
when the namespaces list is empty or one `--namespace <n>` per entry when
it is non-empty, then one `-p <resolved_path>` per policy source in list
order, then the target file as the final argument, joined with single
spaces. -/
theorem c6_conftest_command (planFile : String) (srcs : List Conftest.PolicySource)
    (nss : List String) :
    Conftest.buildConftestCommand planFile srcs nss =
      goJoin " "
        (["conftest", "test", "--no-color", "-o", "json"] ++
          (if nss = [] then ["--all-namespaces"] else nss.flatMap (fun n => ["--namespace", n])) ++
          srcs.flatMap (fun s => ["-p", s.ResolvedPath]) ++ [planFile]) := by
  rw [Conftest.buildConftestCommand, nsFlags_eq, polFlags_eq]
  cases nss with
  | nil => rfl
  | cons n t => simp

/-- C9 counterexample: the resource extracted from a conftest message is
the first single-quoted value even when that value merely contains (but
does not start with) `azurerm_`: for the message below the code surfaces
`data.azurerm_storage.x`, while the claim requires an empty resource
because the value starts with neither `azurerm_` nor `module.`. -/
theorem c9_counterexample :
    Conftest.extractResourceFromMessage
        "violation on 'data.azurerm_storage.x' found" = "data.azurerm_storage.x" ∧
      goStarts "azurerm_" "data.azurerm_storage.x" = false ∧
      goStarts "module." "data.azurerm_storage.x" = false ∧
      ("data.azurerm_storage.x" : String) ≠ "" := by
  refine ⟨by decide, by decide, by decide, by decide⟩

/-- C9 (amended): for every conftest message containing a quoted token
(`pre` has no quote, `v` is the first quoted value), the extracted
resource is `v` if and only if `v` contains a `.` and contains `azurerm_`
or contains `module.`; otherwise it is empty. -/
theorem c9_resource_extraction (pre v post : List Char)
    (hpre : ∀ c ∈ pre, c ≠ quoteChar) (hv : ∀ c ∈ v, c ≠ quoteChar) :
    Conftest.extractResourceFromMessage ⟨pre ++ (quoteChar :: (v ++ quoteChar :: post))⟩ =
      (if goSubL ['.'] v && (goSubL "azurerm_".data v || goSubL "module.".data v)
       then (⟨v⟩ : String) else "") := by
  have hpre' : ∀ c ∈ pre, (c != quoteChar) = true := by
    intro c hc; simpa using hpre c hc
  have hv' : ∀ c ∈ v, (c != quoteChar) = true := by
    intro c hc; simpa using hv c hc
  have hq : (quoteChar != quoteChar) = false := by decide
  have hdrop1 : List.dropWhile (fun c => c != quoteChar)
      (pre ++ (quoteChar :: (v ++ quoteChar :: post))) = quoteChar :: (v ++ quoteChar :: post) := by
    rw [dropWhile_append_all (fun c => c != quoteChar) pre
      (quoteChar :: (v ++ quoteChar :: post)) hpre']
    simp [List.dropWhile, hq]
  have htake : List.takeWhile (fun c => c != quoteChar) (v ++ quoteChar :: post) = v := by
    rw [takeWhile_append_all (fun c => c != quoteChar) v (quoteChar :: post) hv']
    simp [List.takeWhile, hq]
  have hdrop2 : List.dropWhile (fun c => c != quoteChar) (v ++ quoteChar :: post)
      = quoteChar :: post := by
    rw [dropWhile_append_all (fun c => c != quoteChar) v (quoteChar :: post) hv']
    simp [List.dropWhile, hq]
  unfold Conftest.extractResourceFromMessage
  simp only [hdrop1, htake, hdrop2]

/-- C10 counterexample: the command built for an empty namespace entry is
the single-space join of the intended argument list, no intended argument
contains a whitespace character, and yet the executed argv differs from
the intended list (the empty argument vanishes) — refuting the claim's
"if and only if no argument contains whitespace". -/
theorem c10_counterexample :
    Conftest.buildConftestCommand "plan.json"
        [{ OriginalURL := "u", ResolvedPath := "/pol", SourceType := "directory",
           PolicyCount := 1 }] [""] =
      goJoin " " ["conftest", "test", "--no-color", "-o", "json", "--namespace", "",
        "-p", "/pol", "plan.json"] ∧
    (∀ p ∈ ["conftest", "test", "--no-color", "-o", "json", "--namespace", "",
        "-p", "/pol", "plan.json"], ∀ c ∈ p.data, goIsSpace c = false) ∧
    executedArgv (Conftest.buildConftestCommand "plan.json"
        [{ OriginalURL := "u", ResolvedPath := "/pol", SourceType := "directory",
           PolicyCount := 1 }] [""]) ≠
      ["conftest", "test", "--no-color", "-o", "json", "--namespace", "",
        "-p", "/pol", "plan.json"] := by
  refine ⟨by decide, by decide, by decide⟩

/-- C10 (amended): the executed argv is obtained by joining the intended
arguments with single spaces and re-splitting on whitespace; it equals the
intended list if and only if every argument is non-empty and free of
whitespace characters. -/
theorem c10_argv_round_trip (parts : List String) :
    executedArgv (goJoin " " parts) = parts ↔
      ∀ p ∈ parts, p ≠ "" ∧ ∀ c ∈ p.data, goIsSpace c = false :=
  goFields_join_iff parts

/-- C10 witness: a concrete whitespace-free, non-empty argument list
round-trips through join and re-split. -/
theorem c10_witness :
    executedArgv (goJoin " " ["conftest", "test", "--all-namespaces", "-p", "/pol", "f.json"]) =
      ["conftest", "test", "--all-namespaces", "-p", "/pol", "f.json"] :=
  (c10_argv_round_trip ["conftest", "test", "--all-namespaces", "-p", "/pol", "f.json"]).mpr
    (by decide)

theorem countSev_partition (issues : List Tflint.RawIssue)
    (h : ∀ i ∈ issues, lowerStr i.RuleSeverity = "error" ∨
      lowerStr i.RuleSeverity = "warning" ∨ lowerStr i.RuleSeverity = "info") :
    Tflint.countSev issues "error" + Tflint.countSev issues "warning" +
      Tflint.countSev issues "info" = issues.length := by
  induction issues with
  | nil => rfl
  | cons i rest ih =>
    have hrest := ih (fun x hx => h x (by simp [hx]))
    have hi := h i (by simp)
    rcases hi with h1 | h1 | h1 <;>
      simp [Tflint.countSev, List.filter_cons, h1] at hrest ⊢ <;> omega

/-- C3 counterexample: a successfully parsed TFLint output holding one
issue with severity `notice` yields `total_issues = 1` while the three
severity buckets sum to `0`, refuting the claimed equality (the issue is
counted into no bucket). -/
theorem c3_counterexample :
    (Tflint.parseScanOutput
        (.ok { Issues := [{ RuleName := "r", RuleSeverity := "notice", Message := "m",
                            Range := { Filename := "f", Start := { Line := 1, Column := 1 },
                                       End := { Line := 1, Column := 1 } } }],
               Errors := [] }) "raw" "reusable" "/t" "i").2 = none ∧
    (Tflint.parseScanOutput
        (.ok { Issues := [{ RuleName := "r", RuleSeverity := "notice", Message := "m",
                            Range := { Filename := "f", Start := { Line := 1, Column := 1 },
                                       End := { Line := 1, Column := 1 } } }],
               Errors := [] }) "raw" "reusable" "/t" "i").1.Summary.TotalIssues = 1 ∧
    (Tflint.parseScanOutput
        (.ok { Issues := [{ RuleName := "r", RuleSeverity := "notice", Message := "m",
                            Range := { Filename := "f", Start := { Line := 1, Column := 1 },
                                       End := { Line := 1, Column := 1 } } }],
               Errors := [] }) "raw" "reusable" "/t" "i").1.Summary.ErrorCount +
      (Tflint.parseScanOutput
        (.ok { Issues := [{ RuleName := "r", RuleSeverity := "notice", Message := "m",
                            Range := { Filename := "f", Start := { Line := 1, Column := 1 },
                                       End := { Line := 1, Column := 1 } } }],
               Errors := [] }) "raw" "reusable" "/t" "i").1.Summary.WarningCount +
      (Tflint.parseScanOutput
        (.ok { Issues := [{ RuleName := "r", RuleSeverity := "notice", Message := "m",
                            Range := { Filename := "f", Start := { Line := 1, Column := 1 },
                                       End := { Line := 1, Column := 1 } } }],
               Errors := [] }) "raw" "reusable" "/t" "i").1.Summary.InfoCount = 0 := by
  refine ⟨by decide, by decide, by decide⟩

/-- C3 (amended): in every parsed TFLint result each issue is bucketed by
case-insensitive severity match and each top-level error is counted as an
error; `total_issues = error_count + warning_count + info_count` holds
provided every issue severity matches one of `error`, `warning`, `info`
case-insensitively (issues with unrecognised severities enter
`total_issues` but no bucket). -/
theorem c3_tflint_summary (out : Tflint.TfOutput) (raw cat tp init : String)
    (h : ∀ i ∈ out.Issues, lowerStr i.RuleSeverity = "error" ∨
      lowerStr i.RuleSeverity = "warning" ∨ lowerStr i.RuleSeverity = "info") :
    (Tflint.parseScanOutput (.ok out) raw cat tp init).1.Summary.ErrorCount =
        Tflint.countSev out.Issues "error" + out.Errors.length ∧
    (Tflint.parseScanOutput (.ok out) raw cat tp init).1.Summary.WarningCount =
        Tflint.countSev out.Issues "warning" ∧
    (Tflint.parseScanOutput (.ok out) raw cat tp init).1.Summary.InfoCount =
        Tflint.countSev out.Issues "info" ∧
    (Tflint.parseScanOutput (.ok out) raw cat tp init).1.Summary.TotalIssues =
        (Tflint.parseScanOutput (.ok out) raw cat tp init).1.Summary.ErrorCount +
        (Tflint.parseScanOutput (.ok out) raw cat tp init).1.Summary.WarningCount +
        (Tflint.parseScanOutput (.ok out) raw cat tp init).1.Summary.InfoCount := by
  refine ⟨rfl, rfl, rfl, ?_⟩
  have hp := countSev_partition out.Issues h
  simp only [Tflint.parseScanOutput, List.length_append, List.length_map]
  omega

/-- C3 witness: a concrete output with severities `ERROR`, `Warning` and a
top-level error satisfies the amended bucket equalities and total. -/
theorem c3_witness :
    ((∀ i ∈ ({ Issues := [{ RuleName := "r1", RuleSeverity := "ERROR", Message := "m1",
                            Range := { Filename := "f", Start := { Line := 1, Column := 1 },
                                       End := { Line := 1, Column := 1 } } },
                          { RuleName := "r2", RuleSeverity := "Warning", Message := "m2",
                            Range := { Filename := "f", Start := { Line := 2, Column := 1 },
                                       End := { Line := 2, Column := 1 } } }],
               Errors := [{ Message := "boom",
                            Range := { Filename := "f", Start := { Line := 3, Column := 1 },
                                       End := { Line := 3, Column := 1 } } }] } :
        Tflint.TfOutput).Issues, lowerStr i.RuleSeverity = "error" ∨
        lowerStr i.RuleSeverity = "warning" ∨ lowerStr i.RuleSeverity = "info") ∧
      (Tflint.parseScanOutput
        (.ok { Issues := [{ RuleName := "r1", RuleSeverity := "ERROR", Message := "m1",
                            Range := { Filename := "f", Start := { Line := 1, Column := 1 },
                                       End := { Line := 1, Column := 1 } } },
                          { RuleName := "r2", RuleSeverity := "Warning", Message := "m2",
                            Range := { Filename := "f", Start := { Line := 2, Column := 1 },
                                       End := { Line := 2, Column := 1 } } }],
               Errors := [{ Message := "boom",
                            Range := { Filename := "f", Start := { Line := 3, Column := 1 },
                                       End := { Line := 3, Column := 1 } } }] })
        "raw" "reusable" "/t" "i").1.Summary.TotalIssues =
      (Tflint.parseScanOutput
        (.ok { Issues := [{ RuleName := "r1", RuleSeverity := "ERROR", Message := "m1",
                            Range := { Filename := "f", Start := { Line := 1, Column := 1 },
                                       End := { Line := 1, Column := 1 } } },
                          { RuleName := "r2", RuleSeverity := "Warning", Message := "m2",
                            Range := { Filename := "f", Start := { Line := 2, Column := 1 },
                                       End := { Line := 2, Column := 1 } } }],
               Errors := [{ Message := "boom",
                            Range := { Filename := "f", Start := { Line := 3, Column := 1 },
                                       End := { Line := 3, Column := 1 } } }] })
        "raw" "reusable" "/t" "i").1.Summary.ErrorCount +
      (Tflint.parseScanOutput
        (.ok { Issues := [{ RuleName := "r1", RuleSeverity := "ERROR", Message := "m1",
                            Range := { Filename := "f", Start := { Line := 1, Column := 1 },
                                       End := { Line := 1, Column := 1 } } },
                          { RuleName := "r2", RuleSeverity := "Warning", Message := "m2",
                            Range := { Filename := "f", Start := { Line := 2, Column := 1 },
                                       End := { Line := 2, Column := 1 } } }],
               Errors := [{ Message := "boom",
                            Range := { Filename := "f", Start := { Line := 3, Column := 1 },
                                       End := { Line := 3, Column := 1 } } }] })
        "raw" "reusable" "/t" "i").1.Summary.WarningCount +
      (Tflint.parseScanOutput
        (.ok { Issues := [{ RuleName := "r1", RuleSeverity := "ERROR", Message := "m1",
                            Range := { Filename := "f", Start := { Line := 1, Column := 1 },
                                       End := { Line := 1, Column := 1 } } },
                          { RuleName := "r2", RuleSeverity := "Warning", Message := "m2",
                            Range := { Filename := "f", Start := { Line := 2, Column := 1 },
                                       End := { Line := 2, Column := 1 } } }],
               Errors := [{ Message := "boom",
                            Range := { Filename := "f", Start := { Line := 3, Column := 1 },
                                       End := { Line := 3, Column := 1 } } }] })
        "raw" "reusable" "/t" "i").1.Summary.InfoCount) :=
  ⟨by decide,
    (c3_tflint_summary _ "raw" "reusable" "/t" "i" (by decide)).2.2.2⟩

theorem scanAfterSetup_fs (env : Tflint.Env) (param : Tflint.ScanParam)
    (cat tp : String) (cfg : Except String Tflint.ConfigData) (fs : Fs)
    (log : List Tflint.TEvent) :
    (Tflint.scanAfterSetup env param cat tp cfg fs log).fs = fs := by
  unfold Tflint.scanAfterSetup
  split
  · rfl
  · split
    · rfl
    · split
      · rfl
      · rfl

theorem scanAfterSetup_log (env : Tflint.Env) (param : Tflint.ScanParam)
    (cat tp : String) (cfg : Except String Tflint.ConfigData) (fs : Fs)
    (log : List Tflint.TEvent) :
    (Tflint.scanAfterSetup env param cat tp cfg fs log).log = log := by
  unfold Tflint.scanAfterSetup
  split
  · rfl
  · split
    · rfl
    · split
      · rfl
      · rfl

theorem setupRemoteConfig_shape (env : Tflint.Env) (url : String) (fs : Fs) :
    (Tflint.setupRemoteConfig env url fs).cleanupDir = some env.tmpCfgDir ∨
      ((Tflint.setupRemoteConfig env url fs).cleanupDir = none ∧
        (Tflint.setupRemoteConfig env url fs).fs = fs) := by
  unfold Tflint.setupRemoteConfig Tflint.setupTempConfigDir
  cases htmp : env.tmpOk with
  | false => right; simp [htmp]
  | true =>
    left
    simp only [htmp, if_true]
    split
    · rfl
    · split
      · rfl
      · rfl

theorem setupConfig_shape (env : Tflint.Env) (cat : String) (fs : Fs) :
    (Tflint.setupConfig env cat fs).cleanupDir = some env.tmpCfgDir ∨
      ((Tflint.setupConfig env cat fs).cleanupDir = none ∧
        (Tflint.setupConfig env cat fs).fs = fs) := by
  unfold Tflint.setupConfig Tflint.setupTempConfigDir
  cases htmp : env.tmpOk with
  | false => right; simp [htmp]
  | true =>
    left
    simp only [htmp, if_true]
    split
    · rfl
    · rfl

theorem scanSetup_shape (env : Tflint.Env) (param : Tflint.ScanParam) (fs0 : Fs) :
    (Tflint.scanSetup env param fs0).cleanupDir = some env.tmpCfgDir ∨
      ((Tflint.scanSetup env param fs0).cleanupDir = none ∧
        (Tflint.scanSetup env param fs0).fs = fs0) := by
  unfold Tflint.scanSetup
  split
  · exact setupRemoteConfig_shape env param.RemoteConfigUrl fs0
  · exact setupConfig_shape env (Tflint.getDefaultCategory param.Category) fs0

/-- C1: for every conftest scan and every tflint scan that returns,
successfully or with an error, the temporary workspace directory created
for that invocation (fresh, hence absent initially) no longer exists on
the filesystem afterwards. -/
theorem c1_workspace_cleanup :
    (∀ (env : Conftest.Env) (param : Conftest.ScanParam) (fs0 : Fs),
        fs0.existsUnder env.wsName = false →
        (Conftest.Scan env param fs0).2.existsUnder env.wsName = false) ∧
    (∀ (env : Tflint.Env) (param : Tflint.ScanParam) (fs0 : Fs),
        fs0.existsUnder env.tmpCfgDir = false →
        (Tflint.Scan env param fs0).fs.existsUnder env.tmpCfgDir = false) := by
  constructor
  · intro env param fs0 hfresh
    unfold Conftest.Scan
    split
    · exact hfresh
    · split
      · exact hfresh
      · split
        · exact existsUnder_removeAll _ _
        · exact hfresh
  · intro env param fs0 hfresh
    unfold Tflint.Scan
    split
    · exact hfresh
    · split
      · exact hfresh
      · show (Tflint.scanCleanup (Tflint.scanSetup env param fs0) _).fs.existsUnder
          env.tmpCfgDir = false
        rcases scanSetup_shape env param fs0 with hsome | ⟨hnone, hfs⟩
        · unfold Tflint.scanCleanup
          rw [hsome]
          exact existsUnder_removeAll _ _
        · unfold Tflint.scanCleanup
          rw [hnone, scanAfterSetup_fs, hfs]
          exact hfresh

theorem scan_ok_scanBody (env : Conftest.Env) (param : Conftest.ScanParam) (fs0 : Fs)
    (r : Conftest.ScanResult) (h : (Conftest.Scan env param fs0).1 = .ok r) :
    (Conftest.scanBody env param env.wsName (fs0.mkdirAll env.wsName)).1 = .ok r := by
  unfold Conftest.Scan at h
  split at h
  · simp at h
  · split at h
    · simp at h
    · split at h
      · exact h
      · simp at h

theorem scanBody_ok_shape (env : Conftest.Env) (param : Conftest.ScanParam)
    (td : String) (fs : Fs) (r : Conftest.ScanResult)
    (h : (Conftest.scanBody env param td fs).1 = .ok r) :
    r.Success = true ∧
    r.Summary.TotalViolations = r.Violations.length ∧
    r.Summary.ErrorCount = r.Violations.length ∧
    r.Summary.WarningCount = r.Warnings.length ∧
    r.Summary.InfoCount = 0 ∧
    r.Summary.PoliciesRun = r.PolicySources.length := by
  unfold Conftest.scanBody at h
  split at h
  · simp at h
  · split at h
    · simp at h
    · split at h
      · simp at h
      · simp only [] at h
        rw [Except.ok.injEq] at h
        subst h
        simp [Conftest.mkScanResult]

/-- C2: every successful conftest scan result satisfies
`summary.total_violations = |violations| = summary.error_count`,
`summary.warning_count = |warnings|`, `summary.info_count = 0` and
`summary.policies_run = |policy_sources|`. -/
theorem c2_conftest_summary (env : Conftest.Env) (param : Conftest.ScanParam) (fs0 : Fs)
    (r : Conftest.ScanResult) (h : (Conftest.Scan env param fs0).1 = .ok r) :
    r.Summary.TotalViolations = r.Violations.length ∧
    r.Summary.ErrorCount = r.Violations.length ∧
    r.Summary.WarningCount = r.Warnings.length ∧
    r.Summary.InfoCount = 0 ∧
    r.Summary.PoliciesRun = r.PolicySources.length :=
  (scanBody_ok_shape env param env.wsName (fs0.mkdirAll env.wsName) r
    (scan_ok_scanBody env param fs0 r h)).2

theorem scan_eq_scanBody (env : Conftest.Env) (param : Conftest.ScanParam) (fs0 : Fs)
    (hval : param.Validate = .ok ())
    (hplan : Conftest.validateTargetPlan fs0 param.TargetFile = .ok ())
    (htmp : env.tmpOk = true) :
    (Conftest.Scan env param fs0).1 =
      (Conftest.scanBody env param env.wsName (fs0.mkdirAll env.wsName)).1 := by
  simp [Conftest.Scan, hval, hplan, htmp]

theorem executeConftestScan_tolerant (env : Conftest.Env) (cmd e : String)
    (herr : (env.exec "" cmd).err = some e)
    (hstd : (env.exec "" cmd).stdout ≠ "")
    (raw : Conftest.RawOutput)
    (hdec : env.decode (env.exec "" cmd).stdout = .ok raw) :
    Conftest.executeConftestScan env "" cmd = .ok (env.exec "" cmd).stdout := by
  have hb : ((env.exec "" cmd).stdout != "") = true := by simp [hstd]
  simp [Conftest.executeConftestScan, herr, hb, hdec]

theorem scanBody_findings (env : Conftest.Env) (param : Conftest.ScanParam)
    (td : String) (fs : Fs) (sources : List Conftest.PolicySource) (e : String)
    (raw : Conftest.RawOutput)
    (hres : (Conftest.resolvePolicySources env param td fs).1 = .ok sources)
    (herr : (env.exec ""
      (Conftest.buildConftestCommand param.TargetFile sources param.Namespaces)).err = some e)
    (hstd : (env.exec ""
      (Conftest.buildConftestCommand param.TargetFile sources param.Namespaces)).stdout ≠ "")
    (hdec : env.decode (env.exec ""
      (Conftest.buildConftestCommand param.TargetFile sources param.Namespaces)).stdout =
        .ok raw) :
    (Conftest.scanBody env param td fs).1 =
      .ok (Conftest.mkScanResult param sources (Conftest.violationsOf raw)
        (Conftest.warningsOf raw)
        (env.exec ""
          (Conftest.buildConftestCommand param.TargetFile sources param.Namespaces)).stdout) := by
  rcases hX : Conftest.resolvePolicySources env param td fs with ⟨r1, rfs⟩
  rw [hX] at hres
  simp only [] at hres
  subst hres
  have hexec := executeConftestScan_tolerant env
    (Conftest.buildConftestCommand param.TargetFile sources param.Namespaces) e herr hstd raw hdec
  simp [Conftest.scanBody, hX, hexec, Conftest.parseConftestOutput, hdec]

theorem scanBody_parse_error (env : Conftest.Env) (param : Conftest.ScanParam)
    (td : String) (fs : Fs) (sources : List Conftest.PolicySource) (pe : String)
    (hres : (Conftest.resolvePolicySources env param td fs).1 = .ok sources)
    (herr : (env.exec ""
      (Conftest.buildConftestCommand param.TargetFile sources param.Namespaces)).err = none)
    (hdec : env.decode (env.exec ""
      (Conftest.buildConftestCommand param.TargetFile sources param.Namespaces)).stdout =
        .error pe) :
    (Conftest.scanBody env param td fs).1 =
      .error ("output parsing failed: " ++ ("failed to parse conftest output: " ++ pe)) := by
  rcases hX : Conftest.resolvePolicySources env param td fs with ⟨r1, rfs⟩
  rw [hX] at hres
  simp only [] at hres
  subst hres
  have hexec : Conftest.executeConftestScan env ""
      (Conftest.buildConftestCommand param.TargetFile sources param.Namespaces) =
        .ok (env.exec ""
          (Conftest.buildConftestCommand param.TargetFile sources param.Namespaces)).stdout := by
    simp [Conftest.executeConftestScan, herr]
  simp [Conftest.scanBody, hX, hexec, Conftest.parseConftestOutput, hdec]

theorem scanCleanup_result (s : Tflint.SetupOutcome) (out : Tflint.TfOutcome) :
    (Tflint.scanCleanup s out).result = out.result := by
  unfold Tflint.scanCleanup
  split
  · rfl
  · rfl

theorem scanCleanup_err (s : Tflint.SetupOutcome) (out : Tflint.TfOutcome) :
    (Tflint.scanCleanup s out).err = out.err := by
  unfold Tflint.scanCleanup
  split
  · rfl
  · rfl

theorem scanCleanup_log (s : Tflint.SetupOutcome) (out : Tflint.TfOutcome) :
    (Tflint.scanCleanup s out).log = out.log := by
  unfold Tflint.scanCleanup
  split
  · rfl
  · rfl

theorem tflint_scan_reduce (env : Tflint.Env) (param : Tflint.ScanParam) (fs0 : Fs)
    (hmx : (param.Category != "" && param.RemoteConfigUrl != "") = false)
    (hvd : Tflint.validateTargetDirectory fs0
      (Tflint.getDefaultTargetPath env param.TargetPath) = .ok ()) :
    Tflint.Scan env param fs0 =
      Tflint.scanCleanup (Tflint.scanSetup env param fs0)
        (Tflint.scanAfterSetup env param (Tflint.getDefaultCategory param.Category)
          (Tflint.getDefaultTargetPath env param.TargetPath)
          (Tflint.scanSetup env param fs0).cfg (Tflint.scanSetup env param fs0).fs
          (Tflint.scanSetup env param fs0).log) := by
  simp [Tflint.Scan, hmx, hvd]

theorem executeTFLintScan_tolerant (env : Tflint.Env) (tp cfgPath e : String)
    (rules : List String)
    (herr : (env.exec tp (Tflint.tflintScanCommand cfgPath rules)).err = some e)
    (hstd : (env.exec tp (Tflint.tflintScanCommand cfgPath rules)).stdout ≠ "")
    (out : Tflint.TfOutput)
    (hdec : env.decode (env.exec tp (Tflint.tflintScanCommand cfgPath rules)).stdout = .ok out) :
    Tflint.executeTFLintScan env tp cfgPath rules =
      .ok (env.exec tp (Tflint.tflintScanCommand cfgPath rules)).stdout := by
  have hb : ((env.exec tp (Tflint.tflintScanCommand cfgPath rules)).stdout != "") = true := by
    simp [hstd]
  simp [Tflint.executeTFLintScan, herr, hb, hdec]

theorem scanAfterSetup_scan_ok (env : Tflint.Env) (param : Tflint.ScanParam)
    (cat tp : String) (cfg : Tflint.ConfigData) (fs : Fs) (log : List Tflint.TEvent)
    (init : String)
    (hinit : Tflint.executeTFLintInit env tp cfg.ConfigPath = .ok init)
    (stdout : String)
    (hscan : Tflint.executeTFLintScan env tp cfg.ConfigPath param.IgnoredRules = .ok stdout) :
    Tflint.scanAfterSetup env param cat tp (.ok cfg) fs log =
      ⟨some (Tflint.parseScanOutput (env.decode stdout) stdout cat tp init).1,
        (Tflint.parseScanOutput (env.decode stdout) stdout cat tp init).2, fs, log⟩ := by
  simp [Tflint.scanAfterSetup, hinit, hscan]

/-- C4: for both scanners, when the external binary exits non-zero but its
stdout is non-empty and decodes as valid JSON of the expected shape, the
non-zero exit is non-fatal: the scan returns a result with `success=true`
whose violations (conftest) or issues (tflint) are populated from that
JSON. -/
theorem c4_nonzero_exit_tolerance :
    (∀ (env : Conftest.Env) (param : Conftest.ScanParam) (fs0 : Fs)
        (sources : List Conftest.PolicySource) (e : String) (raw : Conftest.RawOutput),
      param.Validate = .ok () →
      Conftest.validateTargetPlan fs0 param.TargetFile = .ok () →
      env.tmpOk = true →
      (Conftest.resolvePolicySources env param env.wsName (fs0.mkdirAll env.wsName)).1 =
        .ok sources →
      (env.exec ""
        (Conftest.buildConftestCommand param.TargetFile sources param.Namespaces)).err =
          some e →
      (env.exec ""
        (Conftest.buildConftestCommand param.TargetFile sources param.Namespaces)).stdout ≠
          "" →
      env.decode (env.exec ""
        (Conftest.buildConftestCommand param.TargetFile sources param.Namespaces)).stdout =
          .ok raw →
      (Conftest.Scan env param fs0).1 =
        .ok (Conftest.mkScanResult param sources (Conftest.violationsOf raw)
          (Conftest.warningsOf raw)
          (env.exec ""
            (Conftest.buildConftestCommand param.TargetFile sources param.Namespaces)).stdout) ∧
      (Conftest.mkScanResult param sources (Conftest.violationsOf raw)
        (Conftest.warningsOf raw)
        (env.exec ""
          (Conftest.buildConftestCommand param.TargetFile sources param.Namespaces)).stdout).Success =
        true) ∧
    (∀ (env : Tflint.Env) (param : Tflint.ScanParam) (fs0 : Fs) (cfg : Tflint.ConfigData)
        (init e : String) (out : Tflint.TfOutput),
      (param.Category != "" && param.RemoteConfigUrl != "") = false →
      Tflint.validateTargetDirectory fs0
        (Tflint.getDefaultTargetPath env param.TargetPath) = .ok () →
      (Tflint.scanSetup env param fs0).cfg = .ok cfg →
      Tflint.executeTFLintInit env (Tflint.getDefaultTargetPath env param.TargetPath)
        cfg.ConfigPath = .ok init →
      (env.exec (Tflint.getDefaultTargetPath env param.TargetPath)
        (Tflint.tflintScanCommand cfg.ConfigPath param.IgnoredRules)).err = some e →
      (env.exec (Tflint.getDefaultTargetPath env param.TargetPath)
        (Tflint.tflintScanCommand cfg.ConfigPath param.IgnoredRules)).stdout ≠ "" →
      env.decode (env.exec (Tflint.getDefaultTargetPath env param.TargetPath)
        (Tflint.tflintScanCommand cfg.ConfigPath param.IgnoredRules)).stdout = .ok out →
      (Tflint.Scan env param fs0).result =
        some (Tflint.parseScanOutput (.ok out)
          (env.exec (Tflint.getDefaultTargetPath env param.TargetPath)
            (Tflint.tflintScanCommand cfg.ConfigPath param.IgnoredRules)).stdout
          (Tflint.getDefaultCategory param.Category)
          (Tflint.getDefaultTargetPath env param.TargetPath) init).1 ∧
      (Tflint.parseScanOutput (.ok out)
          (env.exec (Tflint.getDefaultTargetPath env param.TargetPath)
            (Tflint.tflintScanCommand cfg.ConfigPath param.IgnoredRules)).stdout
          (Tflint.getDefaultCategory param.Category)
          (Tflint.getDefaultTargetPath env param.TargetPath) init).1.Success = true ∧
      (Tflint.parseScanOutput (.ok out)
          (env.exec (Tflint.getDefaultTargetPath env param.TargetPath)
            (Tflint.tflintScanCommand cfg.ConfigPath param.IgnoredRules)).stdout
          (Tflint.getDefaultCategory param.Category)
          (Tflint.getDefaultTargetPath env param.TargetPath) init).1.Issues =
        out.Issues.map Tflint.cvtIssue ++ out.Errors.map Tflint.cvtError) := by
  constructor
  · intro env param fs0 sources e raw hval hplan htmp hres herr hstd hdec
    constructor
    · rw [scan_eq_scanBody env param fs0 hval hplan htmp]
      exact scanBody_findings env param env.wsName (fs0.mkdirAll env.wsName)
        sources e raw hres herr hstd hdec
    · rfl
  · intro env param fs0 cfg init e out hmx hvd hcfg hinit herr hstd hdec
    have hscan := executeTFLintScan_tolerant env
      (Tflint.getDefaultTargetPath env param.TargetPath) cfg.ConfigPath e
      param.IgnoredRules herr hstd out hdec
    have hred := tflint_scan_reduce env param fs0 hmx hvd
    refine ⟨?_, rfl, rfl⟩
    rw [hred, scanCleanup_result, hcfg,
      scanAfterSetup_scan_ok env param (Tflint.getDefaultCategory param.Category)
        (Tflint.getDefaultTargetPath env param.TargetPath) cfg
        (Tflint.scanSetup env param fs0).fs (Tflint.scanSetup env param fs0).log
        init hinit _ hscan, hdec]

/-- C8 counterexample: when tflint exits zero with the non-JSON stdout
`RAWSTDOUTBODY`, the scan surfaces a parse error but the result's output
field holds only the init output and the parse error message — the raw
stdout body is not retained; and the conftest scan in the same situation
returns no result at all, only the wrapped parse error. -/
theorem c8_counterexample :
    (Tflint.Scan wEnvT8 wParamT wFsT).result =
      some { Success := false, Category := "reusable", TargetPath := "/tf", Issues := [],
             Output := "Init: init ok\nParse Error: bad token",
             Summary := { TotalIssues := 0, ErrorCount := 0, WarningCount := 0,
                          InfoCount := 0 } } ∧
    (wEnvT8.exec "/tf" (Tflint.tflintScanCommand "/cfg/base.tflint.hcl" [])).stdout =
      "RAWSTDOUTBODY" ∧
    goContains "Init: init ok\nParse Error: bad token" "RAWSTDOUTBODY" = false ∧
    (Conftest.Scan wEnvC8 wParamC wFsC).1 =
      .error ("output parsing failed: " ++
        ("failed to parse conftest output: " ++ "bad token")) := by
  refine ⟨by decide, by decide, by decide, by rfl⟩

/-- C8 (amended): when the external tool exits zero but its stdout is not
valid JSON, the scan surfaces a parse error; the tflint result's output
field holds the init output and the parse error message (not the raw
stdout body), and the conftest scan returns only the wrapped parse error
with no result. -/
theorem c8_parse_error_surface :
    (∀ (env : Tflint.Env) (param : Tflint.ScanParam) (fs0 : Fs) (cfg : Tflint.ConfigData)
        (init pe : String),
      (param.Category != "" && param.RemoteConfigUrl != "") = false →
      Tflint.validateTargetDirectory fs0
        (Tflint.getDefaultTargetPath env param.TargetPath) = .ok () →
      (Tflint.scanSetup env param fs0).cfg = .ok cfg →
      Tflint.executeTFLintInit env (Tflint.getDefaultTargetPath env param.TargetPath)
        cfg.ConfigPath = .ok init →
      (env.exec (Tflint.getDefaultTargetPath env param.TargetPath)
        (Tflint.tflintScanCommand cfg.ConfigPath param.IgnoredRules)).err = none →
      env.decode (env.exec (Tflint.getDefaultTargetPath env param.TargetPath)
        (Tflint.tflintScanCommand cfg.ConfigPath param.IgnoredRules)).stdout = .error pe →
      (Tflint.Scan env param fs0).result =
        some { Success := false, Category := Tflint.getDefaultCategory param.Category,
               TargetPath := Tflint.getDefaultTargetPath env param.TargetPath, Issues := [],
               Output := "Init: " ++ init ++ "\nParse Error: " ++ pe,
               Summary := { TotalIssues := 0, ErrorCount := 0, WarningCount := 0,
                            InfoCount := 0 } } ∧
      (Tflint.Scan env param fs0).err = some ("failed to parse TFLint output: " ++ pe)) ∧
    (∀ (env : Conftest.Env) (param : Conftest.ScanParam) (fs0 : Fs)
        (sources : List Conftest.PolicySource) (pe : String),
      param.Validate = .ok () →
      Conftest.validateTargetPlan fs0 param.TargetFile = .ok () →
      env.tmpOk = true →
      (Conftest.resolvePolicySources env param env.wsName (fs0.mkdirAll env.wsName)).1 =
        .ok sources →
      (env.exec ""
        (Conftest.buildConftestCommand param.TargetFile sources param.Namespaces)).err =
          none →
      env.decode (env.exec ""
        (Conftest.buildConftestCommand param.TargetFile sources param.Namespaces)).stdout =
          .error pe →
      (Conftest.Scan env param fs0).1 =
        .error ("output parsing failed: " ++ ("failed to parse conftest output: " ++ pe))) := by
  constructor
  · intro env param fs0 cfg init pe hmx hvd hcfg hinit herr hdec
    have hscan : Tflint.executeTFLintScan env
        (Tflint.getDefaultTargetPath env param.TargetPath) cfg.ConfigPath
        param.IgnoredRules =
          .ok (env.exec (Tflint.getDefaultTargetPath env param.TargetPath)
            (Tflint.tflintScanCommand cfg.ConfigPath param.IgnoredRules)).stdout := by
      simp [Tflint.executeTFLintScan, herr]
    have hred := tflint_scan_reduce env param fs0 hmx hvd
    constructor
    · rw [hred, scanCleanup_result, hcfg,
        scanAfterSetup_scan_ok env param (Tflint.getDefaultCategory param.Category)
          (Tflint.getDefaultTargetPath env param.TargetPath) cfg
          (Tflint.scanSetup env param fs0).fs (Tflint.scanSetup env param fs0).log
          init hinit _ hscan, hdec]
      rfl
    · rw [hred, scanCleanup_err, hcfg,
        scanAfterSetup_scan_ok env param (Tflint.getDefaultCategory param.Category)
          (Tflint.getDefaultTargetPath env param.TargetPath) cfg
          (Tflint.scanSetup env param fs0).fs (Tflint.scanSetup env param fs0).log
          init hinit _ hscan, hdec]
      rfl
  · intro env param fs0 sources pe hval hplan htmp hres herr hdec
    rw [scan_eq_scanBody env param fs0 hval hplan htmp]
    exact scanBody_parse_error env param env.wsName (fs0.mkdirAll env.wsName)
      sources pe hres herr hdec

/-- C7 counterexample: at the concrete remote config URL
`git::https://host/org/repo.git?ref=v1` the tflint scan does fail with the
repository-root validation error, but the temp config workspace HAS been
created before the check (the creation event is in the log), refuting the
claim's "no workspace created". -/
theorem c7_counterexample :
    (Tflint.Scan wEnvT wParam7 wFsT).err =
      some ("failed to setup config: " ++
        ("remote_config_url must point to a single file (git repository root detected): " ++
          "git::https://host/org/repo.git?ref=v1")) ∧
    Tflint.TEvent.tempCreated "/cfg" ∈ (Tflint.Scan wEnvT wParam7 wFsT).log := by
  refine ⟨by decide, by decide⟩

/-- C7 (amended): for every tflint scan whose `remote_config_url` starts
with `git::` and, after stripping any `?` query suffix, does not contain
`.git//`, the scan fails with the repository-root validation error, no
fetch is attempted, and no result is produced; the temp config workspace
IS created before the check but is released before the scan returns. -/
theorem c7_git_root_rejection (env : Tflint.Env) (param : Tflint.ScanParam) (fs0 : Fs)
    (hgit : goStarts "git::" param.RemoteConfigUrl = true)
    (hnosub : goContains (Tflint.stripQuery param.RemoteConfigUrl) ".git//" = false)
    (hcat : param.Category = "")
    (hvd : Tflint.validateTargetDirectory fs0
      (Tflint.getDefaultTargetPath env param.TargetPath) = .ok ())
    (htmp : env.tmpOk = true) :
    (Tflint.Scan env param fs0).err =
      some ("failed to setup config: " ++
        ("remote_config_url must point to a single file (git repository root detected): " ++
          param.RemoteConfigUrl)) ∧
    (Tflint.Scan env param fs0).result = none ∧
    (∀ u, Tflint.TEvent.fetch u ∉ (Tflint.Scan env param fs0).log) ∧
    Tflint.TEvent.tempCreated env.tmpCfgDir ∈ (Tflint.Scan env param fs0).log ∧
    (Tflint.Scan env param fs0).fs.existsUnder env.tmpCfgDir = false := by
  have hne : param.RemoteConfigUrl ≠ "" := by
    intro contra
    rw [contra] at hgit
    exact absurd hgit (by decide)
  have hmx : (param.Category != "" && param.RemoteConfigUrl != "") = false := by
    simp [hcat]
  have hrne : (param.RemoteConfigUrl != "") = true := by simp [hne]
  have hsetup : Tflint.scanSetup env param fs0 =
      ⟨.error ("remote_config_url must point to a single file (git repository root detected): " ++
          param.RemoteConfigUrl), some env.tmpCfgDir, fs0.mkdirAll env.tmpCfgDir,
        [.tempCreated env.tmpCfgDir]⟩ := by
    simp [Tflint.scanSetup, hrne, Tflint.setupRemoteConfig, Tflint.setupTempConfigDir,
      htmp, hgit, hnosub]
  have hred := tflint_scan_reduce env param fs0 hmx hvd
  rw [hred, hsetup]
  refine ⟨rfl, rfl, ?_, ?_, ?_⟩
  · intro u
    simp [Tflint.scanCleanup, Tflint.scanAfterSetup]
  · simp [Tflint.scanCleanup, Tflint.scanAfterSetup]
  · exact existsUnder_removeAll _ _

theorem keys_addPolicy (acc : List (String × List String)) (pol : Conftest.IgnoredPolicy) :
    (Conftest.addPolicy acc pol).map Prod.fst =
      if pol.Namespace ∈ acc.map Prod.fst then acc.map Prod.fst
      else acc.map Prod.fst ++ [pol.Namespace] := by
  induction acc with
  | nil => simp [Conftest.addPolicy]
  | cons g rest ih =>
    obtain ⟨ns, rules⟩ := g
    by_cases hg : ns = pol.Namespace
    · subst hg
      simp [Conftest.addPolicy]
    · have hbe : (ns == pol.Namespace) = false := by simp [hg]
      by_cases hmem : pol.Namespace ∈ rest.map Prod.fst
      · simp [Conftest.addPolicy, hbe, ih, hmem, Ne.symm hg]
      · simp [Conftest.addPolicy, hbe, ih, hmem, Ne.symm hg]

theorem keys_nodup_addPolicy (acc : List (String × List String))
    (pol : Conftest.IgnoredPolicy) (h : (acc.map Prod.fst).Nodup) :
    ((Conftest.addPolicy acc pol).map Prod.fst).Nodup := by
  rw [keys_addPolicy]
  by_cases hmem : pol.Namespace ∈ acc.map Prod.fst
  · simpa [hmem] using h
  · simp only [hmem, if_false]
    rw [List.nodup_append]
    refine ⟨h, List.nodup_singleton _, ?_⟩
    intro a ha hb
    rw [List.mem_singleton] at hb
    subst hb
    exact hmem ha

theorem keys_nodup_foldl (pols : List Conftest.IgnoredPolicy) :
    ∀ acc : List (String × List String), (acc.map Prod.fst).Nodup →
      ((pols.foldl Conftest.addPolicy acc).map Prod.fst).Nodup := by
  induction pols with
  | nil => intro acc h; exact h
  | cons pol t ih =>
    intro acc h
    exact ih (Conftest.addPolicy acc pol) (keys_nodup_addPolicy acc pol h)

theorem keys_nodup_group (pols : List Conftest.IgnoredPolicy) :
    ((Conftest.groupByNamespace pols).map Prod.fst).Nodup :=
  keys_nodup_foldl pols [] (by simp)

theorem mem_keys_addPolicy (acc : List (String × List String))
    (pol : Conftest.IgnoredPolicy) (x : String)
    (h : x ∈ (Conftest.addPolicy acc pol).map Prod.fst) :
    x ∈ acc.map Prod.fst ∨ x = pol.Namespace := by
  rw [keys_addPolicy] at h
  by_cases hmem : pol.Namespace ∈ acc.map Prod.fst
  · left; simpa [hmem] using h
  · simp only [hmem, if_false, List.mem_append, List.mem_singleton] at h
    exact h

theorem mem_keys_foldl (pols : List Conftest.IgnoredPolicy) :
    ∀ (acc : List (String × List String)) (x : String),
      x ∈ (pols.foldl Conftest.addPolicy acc).map Prod.fst →
      x ∈ acc.map Prod.fst ∨ x ∈ pols.map (fun p => p.Namespace) := by
  induction pols with
  | nil => intro acc x h; left; exact h
  | cons pol t ih =>
    intro acc x h
    rcases ih (Conftest.addPolicy acc pol) x h with h1 | h2
    · rcases mem_keys_addPolicy acc pol x h1 with h3 | h3
      · left; exact h3
      · right; simp [h3]
    · right; simp [h2]

theorem mem_keys_group (pols : List Conftest.IgnoredPolicy) (x : String)
    (h : x ∈ (Conftest.groupByNamespace pols).map Prod.fst) :
    x ∈ pols.map (fun p => p.Namespace) := by
  rcases mem_keys_foldl pols [] x h with h1 | h1
  · simp at h1
  · exact h1

theorem group_pairwise_lower (pols : List Conftest.IgnoredPolicy)
    (hinj : ∀ p ∈ pols, ∀ q ∈ pols,
      lowerStr p.Namespace = lowerStr q.Namespace → p.Namespace = q.Namespace) :
    (Conftest.groupByNamespace pols).Pairwise (fun a b => lowerStr a.1 ≠ lowerStr b.1) := by
  have hnd := keys_nodup_group pols
  rw [List.Nodup, List.pairwise_map] at hnd
  refine List.Pairwise.imp_of_mem ?_ hnd
  intro a b ha hb hne hlow
  apply hne
  have hma : a.1 ∈ (Conftest.groupByNamespace pols).map Prod.fst :=
    List.mem_map_of_mem Prod.fst ha
  have hmb : b.1 ∈ (Conftest.groupByNamespace pols).map Prod.fst :=
    List.mem_map_of_mem Prod.fst hb
  obtain ⟨p, hp, hpa⟩ := List.mem_map.mp (mem_keys_group pols a.1 hma)
  obtain ⟨q, hq, hqb⟩ := List.mem_map.mp (mem_keys_group pols b.1 hmb)
  rw [← hpa, ← hqb] at hlow ⊢
  exact hinj p hp q hq hlow

theorem exceptionFilePath_inj (td ns1 ns2 : String)
    (h : lowerStr ns1 ≠ lowerStr ns2) :
    Conftest.exceptionFilePath td ns1 ≠ Conftest.exceptionFilePath td ns2 := by
  intro he
  apply h
  apply (strEqIffData _ _).mpr
  have hd := (strEqIffData _ _).mp he
  simp only [Conftest.exceptionFilePath, Conftest.exceptionDir, joinPath, strDataAppend,
    List.append_assoc] at hd
  have hlen := congrArg List.length hd
  simp only [List.length_append] at hlen
  have hl : (lowerStr ns1).data.length = (lowerStr ns2).data.length := by omega
  have hd2 := List.append_cancel_left hd
  have hd3 := List.append_cancel_left hd2
  have hd4 := List.append_cancel_left hd3
  exact (List.append_inj hd4 hl).1

theorem loop_readFile_other (td : String) :
    ∀ (gs : List (String × List String)) (fs : Fs) (q : String),
      (∀ e ∈ gs, Conftest.exceptionFilePath td e.1 ≠ q) →
      (Conftest.createIgnoreLoop td gs fs).2.readFile q = fs.readFile q := by
  intro gs
  induction gs with
  | nil => intro fs q _; rfl
  | cons g rest ih =>
    intro fs q h
    obtain ⟨ns, rules⟩ := g
    have hg : Conftest.exceptionFilePath td ns ≠ q := h (ns, rules) (by simp)
    calc (Conftest.createIgnoreLoop td ((ns, rules) :: rest) fs).2.readFile q
        = (Conftest.createIgnoreLoop td rest
            ((fs.mkdirAll (Conftest.exceptionDir td ns)).write
              (Conftest.exceptionFilePath td ns)
              (Conftest.generateIgnoreRegoContent ns rules))).2.readFile q := rfl
      _ = ((fs.mkdirAll (Conftest.exceptionDir td ns)).write
            (Conftest.exceptionFilePath td ns)
            (Conftest.generateIgnoreRegoContent ns rules)).readFile q :=
          ih _ q (fun e he => h e (by simp [he]))
      _ = fs.readFile q := by
          rw [readFile_write_other _ _ _ _ hg, readFile_mkdirAll]

theorem loop_correct (td : String) :
    ∀ (gs : List (String × List String)) (fs : Fs),
      gs.Pairwise (fun a b => lowerStr a.1 ≠ lowerStr b.1) →
      ∀ e ∈ gs,
        (Conftest.createIgnoreLoop td gs fs).2.readFile
            (Conftest.exceptionFilePath td e.1) =
          some (Conftest.generateIgnoreRegoContent e.1 e.2) ∧
        Conftest.exceptionDir td e.1 ∈ (Conftest.createIgnoreLoop td gs fs).1 := by
  intro gs
  induction gs with
  | nil => intro fs _ e he; simp at he
  | cons g rest ih =>
    intro fs hpw e he
    rw [List.pairwise_cons] at hpw
    obtain ⟨hg, hrest⟩ := hpw
    obtain ⟨ns, rules⟩ := g
    rcases List.mem_cons.mp he with h1 | h2
    · subst h1
      constructor
      · calc (Conftest.createIgnoreLoop td ((ns, rules) :: rest) fs).2.readFile
              (Conftest.exceptionFilePath td ns)
            = (Conftest.createIgnoreLoop td rest
                ((fs.mkdirAll (Conftest.exceptionDir td ns)).write
                  (Conftest.exceptionFilePath td ns)
                  (Conftest.generateIgnoreRegoContent ns rules))).2.readFile
                (Conftest.exceptionFilePath td ns) := rfl
          _ = ((fs.mkdirAll (Conftest.exceptionDir td ns)).write
                (Conftest.exceptionFilePath td ns)
                (Conftest.generateIgnoreRegoContent ns rules)).readFile
                (Conftest.exceptionFilePath td ns) := by
              refine loop_readFile_other td rest _ _ ?_
              intro e' he'
              exact exceptionFilePath_inj td e'.1 ns
                (Ne.symm (hg e' he'))
          _ = some (Conftest.generateIgnoreRegoContent ns rules) :=
              readFile_write_self _ _ _
      · exact List.mem_cons_self _ _
    · have := ih ((fs.mkdirAll (Conftest.exceptionDir td ns)).write
        (Conftest.exceptionFilePath td ns)
        (Conftest.generateIgnoreRegoContent ns rules)) hrest e h2
      exact ⟨this.1, List.mem_cons_of_mem _ this.2⟩

theorem resolve_ok_ignore (env : Conftest.Env) (param : Conftest.ScanParam)
    (td : String) (fs0 : Fs) (sources : List Conftest.PolicySource) (fs' : Fs)
    (hne : param.IgnoredPolicies ≠ [])
    (hr : Conftest.resolvePolicySources env param td fs0 = (.ok sources, fs')) :
    ∃ fs2 sources2,
      fs' = (Conftest.createIgnoreLoop td
        (Conftest.groupByNamespace param.IgnoredPolicies) fs2).2 ∧
      sources = sources2 ++ (Conftest.createIgnoreLoop td
        (Conftest.groupByNamespace param.IgnoredPolicies) fs2).1.map (fun p =>
          { OriginalURL := "ignore-config", ResolvedPath := p,
            SourceType := "directory", PolicyCount := 1 }) := by
  have hb : (!param.IgnoredPolicies.isEmpty) = true := by
    simp [List.isEmpty_iff, hne]
  have hcc : ∀ fs2 : Fs, Conftest.createIgnoreConfig param.IgnoredPolicies td fs2 =
      Conftest.createIgnoreLoop td (Conftest.groupByNamespace param.IgnoredPolicies) fs2 := by
    intro fs2
    simp [Conftest.createIgnoreConfig, List.isEmpty_iff, hne]
  unfold Conftest.resolvePolicySources at hr
  split at hr
  · simp at hr
  · split at hr
    · simp at hr
    · split at hr
      · simp at hr
      · rename_i urls hurls x srcs1 fs1 hdl y srcs2 fs2 hads
        unfold Conftest.appendIgnoreSources at hr
        rw [hb, if_pos rfl, hcc fs2] at hr
        rw [Prod.mk.injEq] at hr
        obtain ⟨hsrc, hfs⟩ := hr
        rw [Except.ok.injEq] at hsrc
        exact ⟨fs2, srcs2, hfs.symm, hsrc.symm⟩

/-- C5 counterexample: for the valid ignored-policy list
`[{A, x}, {a, y}]` — two distinct namespaces sharing the lowercase form
`a` — the claim's file for namespace `A` would be
`<ws>/exceptions_a/exceptions_a.rego` with content `package A ...`, but
after `createIgnoreConfig` that (single) file holds the template for the
other namespace `a`, because the second write overwrites the first (under
Go's arbitrary map order, one of the two namespaces always loses its
file). -/
theorem c5_counterexample :
    ("A", ["x"]) ∈ Conftest.groupByNamespace
        [{ Namespace := "A", Name := "x" }, { Namespace := "a", Name := "y" }] ∧
    (Conftest.createIgnoreConfig
        [{ Namespace := "A", Name := "x" }, { Namespace := "a", Name := "y" }]
        "/ws" ⟨[], []⟩).2.readFile (Conftest.exceptionFilePath "/ws" "A") =
      some (Conftest.generateIgnoreRegoContent "a" ["y"]) ∧
    Conftest.generateIgnoreRegoContent "a" ["y"] ≠
      Conftest.generateIgnoreRegoContent "A" ["x"] := by
  refine ⟨by decide, by decide, by decide⟩

/-- C5 (amended): for every non-empty ignored_policies list whose entries
all have non-empty namespace and name, and in which no two distinct
namespaces share the same lowercase form, a successful
`resolvePolicySources` leaves, for each namespace `ns` grouped with rule
list `rules` (rule names in first-seen order), the file
`<workspace>/exceptions_<lower(ns)>/exceptions_<lower(ns)>.rego` whose
content is exactly the `package <ns>` / `import rego.v1` /
`exception contains rules if` template, and appends the directory to the
policy sources as `{original_url="ignore-config", type=directory,
policy_count=1}`. -/
theorem c5_ignore_config (env : Conftest.Env) (param : Conftest.ScanParam)
    (td : String) (fs0 : Fs) (sources : List Conftest.PolicySource) (fs' : Fs)
    (hne : param.IgnoredPolicies ≠ [])
    (_hvalid : ∀ p ∈ param.IgnoredPolicies, p.Namespace ≠ "" ∧ p.Name ≠ "")
    (hinj : ∀ p ∈ param.IgnoredPolicies, ∀ q ∈ param.IgnoredPolicies,
      lowerStr p.Namespace = lowerStr q.Namespace → p.Namespace = q.Namespace)
    (hr : Conftest.resolvePolicySources env param td fs0 = (.ok sources, fs')) :
    ∀ ns rules, (ns, rules) ∈ Conftest.groupByNamespace param.IgnoredPolicies →
      fs'.readFile (Conftest.exceptionFilePath td ns) =
        some (Conftest.generateIgnoreRegoContent ns rules) ∧
      ({ OriginalURL := "ignore-config", ResolvedPath := Conftest.exceptionDir td ns,
         SourceType := "directory", PolicyCount := 1 } : Conftest.PolicySource) ∈ sources := by
  obtain ⟨fs2, sources2, hfs, hsrc⟩ := resolve_ok_ignore env param td fs0 sources fs' hne hr
  intro ns rules hmem
  have hpw := group_pairwise_lower param.IgnoredPolicies hinj
  have hc := loop_correct td (Conftest.groupByNamespace param.IgnoredPolicies) fs2 hpw
    (ns, rules) hmem
  subst hfs
  subst hsrc
  refine ⟨hc.1, ?_⟩
  rw [List.mem_append]
  right
  exact List.mem_map_of_mem _ hc.2

/-- C1 witness: concrete conftest and tflint scans leave no trace of their
workspaces. -/
theorem c1_witness :
    (Conftest.Scan wEnvC wParamC wFsC).2.existsUnder "/ws" = false ∧
    (Tflint.Scan wEnvT wParamT wFsT).fs.existsUnder "/cfg" = false :=
  ⟨c1_workspace_cleanup.1 wEnvC wParamC wFsC (by decide),
   c1_workspace_cleanup.2 wEnvT wParamT wFsT (by decide)⟩

/-- C2 witness: the concrete successful conftest scan returns `wResC`,
whose summary satisfies the claimed equalities. -/
theorem c2_witness :
    (Conftest.Scan wEnvC wParamC wFsC).1 = Except.ok wResC ∧
    (wResC.Summary.TotalViolations = wResC.Violations.length ∧
     wResC.Summary.ErrorCount = wResC.Violations.length ∧
     wResC.Summary.WarningCount = wResC.Warnings.length ∧
     wResC.Summary.InfoCount = 0 ∧
     wResC.Summary.PoliciesRun = wResC.PolicySources.length) :=
  ⟨rfl, c2_conftest_summary wEnvC wParamC wFsC wResC rfl⟩

/-- C4 witness: concrete non-zero-exit scans with valid JSON stdout
succeed with the findings populated from that JSON. -/
theorem c4_witness :
    (Conftest.Scan wEnvC4 wParamC wFsC).1 =
      .ok (Conftest.mkScanResult wParamC
        [{ OriginalURL := "u", ResolvedPath := "/ws/p0", SourceType := "directory",
           PolicyCount := 1 }]
        (Conftest.violationsOf [wNsRes]) (Conftest.warningsOf [wNsRes]) "VOUT") ∧
    (Tflint.Scan wEnvT4 wParamT wFsT).result =
      some (Tflint.parseScanOutput (.ok { Issues := [wIssue4], Errors := [] }) "FOUT"
        "reusable" "/tf" "init ok").1 :=
  ⟨(c4_nonzero_exit_tolerance.1 wEnvC4 wParamC wFsC
      [{ OriginalURL := "u", ResolvedPath := "/ws/p0", SourceType := "directory",
         PolicyCount := 1 }]
      "exit status 2" [wNsRes] rfl rfl rfl rfl rfl (by decide) rfl).1,
   (c4_nonzero_exit_tolerance.2 wEnvT4 wParamT wFsT
      { TempDir := "/cfg", ConfigPath := "/cfg/base.tflint.hcl" }
      "init ok" "exit status 2" { Issues := [wIssue4], Errors := [] }
      (by decide) rfl rfl rfl rfl (by decide) rfl).1⟩

/-- C5 witness: a concrete resolution with ignored policies in namespaces
`avmsec` and `APRL` materialises the `avmsec` exception file with the
exact template and appends the ignore-config source. -/
theorem c5_witness :
    wFs5.readFile (Conftest.exceptionFilePath "/t" "avmsec") =
      some (Conftest.generateIgnoreRegoContent "avmsec" ["rule_a"]) ∧
    ({ OriginalURL := "ignore-config", ResolvedPath := Conftest.exceptionDir "/t" "avmsec",
       SourceType := "directory", PolicyCount := 1 } : Conftest.PolicySource) ∈ wSources5 :=
  c5_ignore_config wEnvC wParamC5 "/t" wFsC wSources5 wFs5 (by decide) (by decide)
    (by decide) rfl "avmsec" ["rule_a"] (by decide)

/-- C7 witness: the amended repository-root rejection at the concrete
URL. -/
theorem c7_witness :
    (Tflint.Scan wEnvT wParam7 wFsT).err =
      some ("failed to setup config: " ++
        ("remote_config_url must point to a single file (git repository root detected): " ++
          wParam7.RemoteConfigUrl)) ∧
    (Tflint.Scan wEnvT wParam7 wFsT).result = none ∧
    (∀ u, Tflint.TEvent.fetch u ∉ (Tflint.Scan wEnvT wParam7 wFsT).log) ∧
    Tflint.TEvent.tempCreated wEnvT.tmpCfgDir ∈ (Tflint.Scan wEnvT wParam7 wFsT).log ∧
    (Tflint.Scan wEnvT wParam7 wFsT).fs.existsUnder wEnvT.tmpCfgDir = false :=
  c7_git_root_rejection wEnvT wParam7 wFsT (by decide) (by decide) rfl rfl rfl

/-- C8 witness: the amended parse-error behaviour at the concrete
oracles. -/
theorem c8_witness :
    ((Tflint.Scan wEnvT8 wParamT wFsT).result =
      some { Success := false, Category := "reusable", TargetPath := "/tf", Issues := [],
             Output := "Init: " ++ "init ok" ++ "\nParse Error: " ++ "bad token",
             Summary := { TotalIssues := 0, ErrorCount := 0, WarningCount := 0,
                          InfoCount := 0 } } ∧
     (Tflint.Scan wEnvT8 wParamT wFsT).err =
       some ("failed to parse TFLint output: " ++ "bad token")) ∧
    (Conftest.Scan wEnvC8 wParamC wFsC).1 =
      .error ("output parsing failed: " ++
        ("failed to parse conftest output: " ++ "bad token")) :=
  ⟨c8_parse_error_surface.1 wEnvT8 wParamT wFsT
      { TempDir := "/cfg", ConfigPath := "/cfg/base.tflint.hcl" }
      "init ok" "bad token" (by decide) rfl rfl rfl rfl rfl,
   c8_parse_error_surface.2 wEnvC8 wParamC wFsC
      [{ OriginalURL := "u", ResolvedPath := "/ws/p0", SourceType := "directory",
         PolicyCount := 1 }]
      "bad token" rfl rfl rfl rfl rfl rfl⟩

/-- C9 witness: the amended extraction rule at a concrete message. -/
theorem c9_witness :
    Conftest.extractResourceFromMessage
        ⟨"on ".data ++ (quoteChar :: ("azurerm_a.b".data ++ quoteChar :: " x".data))⟩ =
      "azurerm_a.b" := by
  have h := c9_resource_extraction "on ".data "azurerm_a.b".data " x".data
    (by decide) (by decide)
  rw [h]
  decide
